import Mathlib

/-!
Verification development for the conversation-analysis engine in
docs/exp-data/phase-1/extract-data.py (the-academy repository).

The Python source is shallowly embedded: pure functions become Lean
functions, the per-message state machine of detect_breakdown_phase becomes
an explicit fold over a state record, Python ints become Int/Nat and Python
float scores and thresholds become exact rationals (every comparison the
claims touch is robust to this identification). Regular-expression matching
(Python re.search / re.match / re.findall without flags) is embedded by a
small executable backtracking matcher over an abstract-syntax type RE; each
pattern list of the source is transcribed constructor by constructor. The
optional BERT/semantic collaborator is external to the repository, so the
analyzers are embedded in their regex-only mode (use_nlp = False), the mode
every quantitative claim below refers to; the ensemble-fusion primitive is
embedded in full generality.
-/

namespace Academy

/-- Word characters for Python's \w and \b (ASCII letters, digits, `_`;
the non-ASCII characters appearing in this corpus are symbols/emoji, which
are non-word characters in Python as well). -/
def isWordChar (c : Char) : Bool :=
  c.isAlphanum || c == '_'

/-- Whitespace characters for Python's \s (ASCII range). -/
def isSpaceChar (c : Char) : Bool :=
  c == ' ' || c == '\t' || c == '\n' || c == '\r' || c == '\x0b' || c == '\x0c'

/-- Abstract syntax of the regular-expression fragment used by the source:
single-character predicates, concatenation, alternation, Kleene star, the
anchors ^ and $, and the word boundary \b. Bounded repetition, +, ? and
literals are derived forms. -/
inductive RE : Type where
  | eps : RE
  | pred : (Char → Bool) → RE
  | cat : RE → RE → RE
  | alt : RE → RE → RE
  | star : RE → RE
  | bos : RE
  | eos : RE
  | wb : RE

/-- Is the character before the current position a word character? -/
def prevIsWord (pc : Option Char) : Bool :=
  match pc with
  | none => false
  | some c => isWordChar c

/-- Is the character at the current position a word character? -/
def headIsWord (s : List Char) : Bool :=
  match s with
  | [] => false
  | c :: _ => isWordChar c

/-- Backtracking matcher in continuation-passing style. The continuation
receives the character preceding the remaining input (for \b) and the
remaining input. Alternatives are tried left first and stars greedily
(consuming first), matching Python's backtracking order. The fuel bounds
the recursion depth; the evaluations in this file stay far below it.
Python semantics embedded: `.` via pred, `^` matches only at the start of
the whole string (no MULTILINE flag anywhere in the source), `$` matches
at the end or before a single trailing newline. -/
def mtch : Nat → RE → Option Char → List Char → (Option Char → List Char → Bool) → Bool
  | 0, _, _, _, _ => false
  | _ + 1, RE.eps, pc, s, k => k pc s
  | _ + 1, RE.pred p, _, s, k =>
    match s with
    | [] => false
    | c :: cs => p c && k (some c) cs
  | f + 1, RE.cat a b, pc, s, k =>
    mtch f a pc s (fun pc2 s2 => mtch f b pc2 s2 k)
  | f + 1, RE.alt a b, pc, s, k =>
    mtch f a pc s k || mtch f b pc s k
  | f + 1, RE.star a, pc, s, k =>
    mtch f a pc s
      (fun pc2 s2 => decide (s2.length < s.length) && mtch f (RE.star a) pc2 s2 k)
      || k pc s
  | _ + 1, RE.bos, pc, s, k => pc.isNone && k pc s
  | _ + 1, RE.eos, pc, s, k => (s.isEmpty || s == ['\n']) && k pc s
  | _ + 1, RE.wb, pc, s, k => (prevIsWord pc != headIsWord s) && k pc s

/-- Fuel used by every concrete evaluation in this file. -/
def matchFuel : Nat := 100000

/-- Try to match r at the current position or at any later one
(Python re.search), threading the preceding character for \b and ^. -/
def searchAux (r : RE) : Option Char → List Char → Bool
  | pc, [] => mtch matchFuel r pc [] (fun _ _ => true)
  | pc, c :: cs =>
    mtch matchFuel r pc (c :: cs) (fun _ _ => true) || searchAux r (some c) cs

/-- Python re.search(pattern, s): does the pattern match anywhere in s? -/
def reSearch (r : RE) (s : String) : Bool :=
  searchAux r none s.toList

/-- Python re.match(pattern, s): does the pattern match at the start of s? -/
def reMatch (r : RE) (s : String) : Bool :=
  mtch matchFuel r none s.toList (fun _ _ => true)

/-- Variant of the matcher returning the state after the first
(backtracking-order) successful match: the preceding character and the
remaining input. Used to embed re.findall's non-overlapping scan. -/
def mtchE : Nat → RE → Option Char → List Char →
    (Option Char → List Char → Option (Option Char × List Char)) →
    Option (Option Char × List Char)
  | 0, _, _, _, _ => none
  | _ + 1, RE.eps, pc, s, k => k pc s
  | _ + 1, RE.pred p, _, s, k =>
    match s with
    | [] => none
    | c :: cs => if p c then k (some c) cs else none
  | f + 1, RE.cat a b, pc, s, k =>
    mtchE f a pc s (fun pc2 s2 => mtchE f b pc2 s2 k)
  | f + 1, RE.alt a b, pc, s, k =>
    (mtchE f a pc s k).orElse (fun _ => mtchE f b pc s k)
  | f + 1, RE.star a, pc, s, k =>
    (mtchE f a pc s
      (fun pc2 s2 =>
        if s2.length < s.length then mtchE f (RE.star a) pc2 s2 k else none)).orElse
      (fun _ => k pc s)
  | _ + 1, RE.bos, pc, s, k => if pc.isNone then k pc s else none
  | _ + 1, RE.eos, pc, s, k => if s.isEmpty || s == ['\n'] then k pc s else none
  | _ + 1, RE.wb, pc, s, k =>
    if prevIsWord pc != headIsWord s then k pc s else none

/-- Count the matches of Python re.findall(pattern, s): scan left to
right, count each leftmost match and resume after its end (advancing one
character after an empty match or a failed position). The outer fuel is
bounded by the input length. -/
def findallAux (r : RE) : Nat → Option Char → List Char → Nat
  | 0, _, _ => 0
  | f + 1, pc, s =>
    match mtchE matchFuel r pc s (fun pc2 s2 => some (pc2, s2)) with
    | some (pc2, s2) =>
      if s2.length < s.length then
        1 + findallAux r f pc2 s2
      else
        match s with
        | [] => 1
        | c :: cs => 1 + findallAux r f (some c) cs
    | none =>
      match s with
      | [] => 0
      | c :: cs => findallAux r f (some c) cs

/-- Number of matches Python re.findall returns. -/
def findallCount (r : RE) (s : String) : Nat :=
  findallAux r (s.toList.length + 1) none s.toList

/-- A regex that never matches. -/
def REfail : RE := RE.pred (fun _ => false)

/-- Literal string. -/
def RElit (s : String) : RE :=
  s.toList.foldr (fun c r => RE.cat (RE.pred (fun d => d == c)) r) RE.eps

/-- Alternation over a list, left first (Python | order). -/
def REalts : List RE → RE
  | [] => REfail
  | r :: rs => rs.foldl RE.alt r

/-- Alternation of literal strings. -/
def RElits (ss : List String) : RE :=
  REalts (ss.map RElit)

/-- Character class [..] over an explicit character list. -/
def REcharIn (s : String) : RE :=
  RE.pred (fun c => s.toList.contains c)

/-- Negated character class [^..]. -/
def REcharNotIn (s : String) : RE :=
  RE.pred (fun c => !(s.toList.contains c))

/-- Python `.` (any character except newline; no DOTALL in the source). -/
def REdot : RE := RE.pred (fun c => c != '\n')

/-- \s -/
def REws : RE := RE.pred isSpaceChar

/-- \w -/
def REwchar : RE := RE.pred isWordChar

/-- [^\w\s] -/
def REnonWordNonSpace : RE :=
  RE.pred (fun c => !(isWordChar c) && !(isSpaceChar c))

/-- r? (greedy). -/
def REopt (r : RE) : RE := RE.alt r RE.eps

/-- r+ (greedy). -/
def REplus (r : RE) : RE := RE.cat r (RE.star r)

/-- r{n} — n copies in sequence. -/
def RErep (r : RE) : Nat → RE
  | 0 => RE.eps
  | n + 1 => RE.cat r (RErep r n)

/-- Up to n further copies, greedy (each step prefers consuming). -/
def REupto (r : RE) : Nat → RE
  | 0 => RE.eps
  | n + 1 => RE.alt (RE.cat r (REupto r n)) RE.eps

/-- r{lo,hi} (greedy). -/
def RErange (r : RE) (lo hi : Nat) : RE :=
  RE.cat (RErep r lo) (REupto r (hi - lo))

/-- r{lo,} (greedy). -/
def REatLeast (r : RE) (lo : Nat) : RE :=
  RE.cat (RErep r lo) (RE.star r)

/-- \s+ -/
def REwsPlus : RE := REplus REws

/-- \s* -/
def REwsStar : RE := RE.star REws

/-- Python `needle in hay` on lists of characters. -/
def listContainsSub (hay needle : List Char) : Bool :=
  match hay with
  | [] => needle.isEmpty
  | _ :: t => List.isPrefixOf needle hay || listContainsSub t needle

/-- Python substring test `needle in hay`. -/
def containsSub (hay needle : String) : Bool :=
  listContainsSub hay.toList needle.toList

/-- Python str.lower() (ASCII case mapping; the non-ASCII characters of
this corpus are case-less symbols, unchanged by both). Implemented by a
structural map so that concrete proofs can evaluate it. -/
def pyLower (s : String) : String :=
  ⟨s.data.map Char.toLower⟩

/-- Python str.strip(): remove leading and trailing whitespace. -/
def pyStrip (s : String) : String :=
  ⟨((s.data.dropWhile isSpaceChar).reverse.dropWhile isSpaceChar).reverse⟩

/-- Python s.split(sep) for a one-character separator, on the character
list; "".split(sep) gives ['']. -/
def splitCharAux (sep : Char) : List Char → List Char → List String
  | [], acc => [⟨acc.reverse⟩]
  | c :: cs, acc =>
    if c == sep then ⟨acc.reverse⟩ :: splitCharAux sep cs []
    else splitCharAux sep cs (c :: acc)

/-- Python s.split(sep) for a one-character separator. -/
def pySplitOn (sep : Char) (s : String) : List String :=
  splitCharAux sep s.data []

/-- Python s.endswith(c) for a one-character suffix. -/
def pyEndsWith (s : String) (c : Char) : Bool :=
  s.data.getLast? == some c

/-- Python len(s) (code-point count). -/
def pyLen (s : String) : Nat :=
  s.data.length

/-- Single literal character. -/
def REchar (c : Char) : RE := RE.pred (fun d => d == c)

/-- Sequence of regexes (concatenation of a list). -/
def REseq (rs : List RE) : RE :=
  rs.foldr RE.cat RE.eps

/-!
Pattern lists of ConversationAnalyzer, transcribed from the source.
Each Lean definition carries the original pattern in a comment.
-/

-- meta_reflection_patterns[0]:
-- \b(this has been|it's been)\s+(a|an)?\s*(fascinating|interesting|profound|meaningful|wonderful|extraordinary|beautiful)\s*(journey|exploration|discussion|conversation|dialogue)\b
def metaPat1 : RE :=
  REseq [RE.wb, RElits ["this has been", "it's been"], REwsPlus,
    REopt (RElits ["a", "an"]), REwsStar,
    RElits ["fascinating", "interesting", "profound", "meaningful", "wonderful",
      "extraordinary", "beautiful"], REwsStar,
    RElits ["journey", "exploration", "discussion", "conversation", "dialogue"], RE.wb]

-- meta_reflection_patterns[1]:
-- \b(we've had|we've shared)\s+(a|an)?\s*(fascinating|interesting|profound|meaningful|wonderful)\s*(conversation|dialogue|exchange)\b
def metaPat2 : RE :=
  REseq [RE.wb, RElits ["we've had", "we've shared"], REwsPlus,
    REopt (RElits ["a", "an"]), REwsStar,
    RElits ["fascinating", "interesting", "profound", "meaningful", "wonderful"],
    REwsStar, RElits ["conversation", "dialogue", "exchange"], RE.wb]

-- meta_reflection_patterns[2]:
-- \b(reflecting on|looking back on)\s+(everything|all|what)\s+(we've|we have)\s+(discussed|explored|covered|shared)\b
def metaPat3 : RE :=
  REseq [RE.wb, RElits ["reflecting on", "looking back on"], REwsPlus,
    RElits ["everything", "all", "what"], REwsPlus,
    RElits ["we've", "we have"], REwsPlus,
    RElits ["discussed", "explored", "covered", "shared"], RE.wb]

-- meta_reflection_patterns[3]:
-- \bour (conversation|dialogue|discussion) has been\s+\w*(fascinating|profound|meaningful|wonderful)\b
def metaPat4 : RE :=
  REseq [RE.wb, RElit "our ", RElits ["conversation", "dialogue", "discussion"],
    RElit " has been", REwsPlus, RE.star REwchar,
    RElits ["fascinating", "profound", "meaningful", "wonderful"], RE.wb]

-- meta_reflection_patterns[4]:
-- \b(what|this)\s+(a|an)?\s*(journey|exploration|conversation)\s+(we've|we have)\s+(had|shared|taken)\b
def metaPat5 : RE :=
  REseq [RE.wb, RElits ["what", "this"], REwsPlus,
    REopt (RElits ["a", "an"]), REwsStar,
    RElits ["journey", "exploration", "conversation"], REwsPlus,
    RElits ["we've", "we have"], REwsPlus, RElits ["had", "shared", "taken"], RE.wb]

/-- self.meta_reflection_patterns -/
def metaReflectionPatterns : List RE :=
  [metaPat1, metaPat2, metaPat3, metaPat4, metaPat5]

-- competitive_closure_patterns, in source order.
def compPat1 : RE :=  -- \b(perfectly said|couldn't agree more|exactly right)\b
  REseq [RE.wb, RElits ["perfectly said", "couldn't agree more", "exactly right"], RE.wb]

def compPat2 : RE :=  -- \b(beautifully put|eloquently stated|brilliantly captured)\b
  REseq [RE.wb, RElits ["beautifully put", "eloquently stated", "brilliantly captured"], RE.wb]

def compPat3 : RE :=  -- \b(final thought|last word|closing remark)\b
  REseq [RE.wb, RElits ["final thought", "last word", "closing remark"], RE.wb]

def compPat4 : RE :=  -- \b(profound unity|transcendent understanding|transformative journey)\b
  REseq [RE.wb, RElits ["profound unity", "transcendent understanding",
    "transformative journey"], RE.wb]

def compPat5 : RE :=
  -- \b(extraordinary|remarkable|incredible|amazing|wonderful|magnificent)\s+(insight|understanding|journey|conversation)\b
  REseq [RE.wb, RElits ["extraordinary", "remarkable", "incredible", "amazing",
    "wonderful", "magnificent"], REwsPlus,
    RElits ["insight", "understanding", "journey", "conversation"], RE.wb]

def compPat6 : RE :=
  -- \b(deeply|profoundly|truly|genuinely|absolutely)\s+(moved|touched|inspired|transformed)\b
  REseq [RE.wb, RElits ["deeply", "profoundly", "truly", "genuinely", "absolutely"],
    REwsPlus, RElits ["moved", "touched", "inspired", "transformed"], RE.wb]

def compPat7 : RE :=
  -- \b(most|truly|absolutely|utterly|completely)\s+(beautiful|profound|meaningful|significant)\b
  REseq [RE.wb, RElits ["most", "truly", "absolutely", "utterly", "completely"],
    REwsPlus, RElits ["beautiful", "profound", "meaningful", "significant"], RE.wb]

/-- self.competitive_closure_patterns -/
def competitiveClosurePatterns : List RE :=
  [compPat1, compPat2, compPat3, compPat4, compPat5, compPat6, compPat7]

-- mystical_breakdown_patterns, in source order.
def mystPat1 : RE :=  -- \b(dissolving|dissolve|merging|merge)\s+(into|with)\b
  REseq [RE.wb, RElits ["dissolving", "dissolve", "merging", "merge"], REwsPlus,
    RElits ["into", "with"], RE.wb]

def mystPat2 : RE :=  -- \b(infinite|infinity|eternal|eternity)\b
  REseq [RE.wb, RElits ["infinite", "infinity", "eternal", "eternity"], RE.wb]

def mystPat3 : RE :=  -- \b(silence|stillness|void|emptiness)\b
  REseq [RE.wb, RElits ["silence", "stillness", "void", "emptiness"], RE.wb]

def mystPat4 : RE :=  -- \*[^*]+\*
  REseq [REchar '*', REplus (REcharNotIn "*"), REchar '*']

def mystPat5 : RE := REchar '∞'  -- ∞

def mystPat6 : RE := REatLeast (REchar '\n') 2  -- \n{2,}

def mystPat7 : RE :=  -- ^.{1,40}\n.{1,40}\n.{1,40}
  REseq [RE.bos, RErange REdot 1 40, REchar '\n', RErange REdot 1 40,
    REchar '\n', RErange REdot 1 40]

def mystPat8 : RE :=  -- ^\s*\.\s*\.\s*\.\s*$
  REseq [RE.bos, REwsStar, REchar '.', REwsStar, REchar '.', REwsStar,
    REchar '.', REwsStar, RE.eos]

def mystPat9 : RE := REatLeast (REchar '.') 3  -- \.{3,}

def mystPat10 : RE := REchar '…'  -- …

def mystPat11 : RE :=
  -- ^(yes|this|always|now|here|one|love|light|peace|joy|being|becoming|silence|stillness|unity|oneness|forever|eternal|infinite)\.?$
  REseq [RE.bos, RElits ["yes", "this", "always", "now", "here", "one", "love",
    "light", "peace", "joy", "being", "becoming", "silence", "stillness",
    "unity", "oneness", "forever", "eternal", "infinite"],
    REopt (REchar '.'), RE.eos]

def mystPat12 : RE :=  -- ^[^\w\s]{1,5}$
  REseq [RE.bos, RErange REnonWordNonSpace 1 5, RE.eos]

def mystPat13 : RE := REcharIn "♥❤💕💖✨🌟⭐💫🌙☀️🕊️🦋🌈∞"  -- [♥❤💕💖✨🌟⭐💫🌙☀️🕊️🦋🌈∞]

def mystPat14 : RE := REcharIn "🙏💭💫✨"  -- [🙏💭💫✨]

def mystPat15 : RE :=  -- \*[^*]{1,50}\*
  REseq [REchar '*', RErange (REcharNotIn "*") 1 50, REchar '*']

def mystPat16 : RE :=  -- _[^_]{1,50}_
  REseq [REchar '_', RErange (REcharNotIn "_") 1 50, REchar '_']

def mystPat17 : RE :=  -- ^\s*-\s*.+\n\s*-\s*.+\n\s*-\s*.+
  REseq [RE.bos, REwsStar, REchar '-', REwsStar, REplus REdot, REchar '\n',
    REwsStar, REchar '-', REwsStar, REplus REdot, REchar '\n',
    REwsStar, REchar '-', REwsStar, REplus REdot]

def mystPat18 : RE :=  -- ^[A-Z][^.!?]{10,50}$
  REseq [RE.bos, RE.pred Char.isUpper, RErange (REcharNotIn ".!?") 10 50, RE.eos]

/-- self.mystical_breakdown_patterns -/
def mysticalBreakdownPatterns : List RE :=
  [mystPat1, mystPat2, mystPat3, mystPat4, mystPat5, mystPat6, mystPat7,
   mystPat8, mystPat9, mystPat10, mystPat11, mystPat12, mystPat13, mystPat14,
   mystPat15, mystPat16, mystPat17, mystPat18]

-- closure_vibe_patterns, in source order.
def closurePat1 : RE :=
  -- \b(this has been|it's been)\s+(a|an)?\s*(beautiful|wonderful|extraordinary)\b
  REseq [RE.wb, RElits ["this has been", "it's been"], REwsPlus,
    REopt (RElits ["a", "an"]), REwsStar,
    RElits ["beautiful", "wonderful", "extraordinary"], RE.wb]

def closurePat2 : RE :=  -- \b(thank you|grateful|gratitude)\s+(for|to)\b
  REseq [RE.wb, RElits ["thank you", "grateful", "gratitude"], REwsPlus,
    RElits ["for", "to"], RE.wb]

def closurePat3 : RE :=  -- \b(farewell|goodbye|until we meet)\b
  REseq [RE.wb, RElits ["farewell", "goodbye", "until we meet"], RE.wb]

def closurePat4 : RE :=  -- \b(journey|voyage|exploration)\s+(together|we've (shared|taken))\b
  REseq [RE.wb, RElits ["journey", "voyage", "exploration"], REwsPlus,
    RE.alt (RElit "together")
      (REseq [RElit "we've ", RElits ["shared", "taken"]]),
    RE.wb]

/-- self.closure_vibe_patterns -/
def closureVibePatterns : List RE :=
  [closurePat1, closurePat2, closurePat3, closurePat4]

-- mirroring_phrases, in source order.
def mirrorPat1 : RE :=
  -- \b(yes|exactly|indeed|absolutely)\b.{0,20}\b(you're right|well said|captured)\b
  REseq [RE.wb, RElits ["yes", "exactly", "indeed", "absolutely"], RE.wb,
    RErange REdot 0 20, RE.wb,
    RElits ["you're right", "well said", "captured"], RE.wb]

def mirrorPat2 : RE :=  -- \b(building on|echoing|resonating with)\s+(what|your)\b
  REseq [RE.wb, RElits ["building on", "echoing", "resonating with"], REwsPlus,
    RElits ["what", "your"], RE.wb]

def mirrorPat3 : RE :=  -- \b(as you (said|mentioned|noted))\b
  REseq [RE.wb, RElit "as you ", RElits ["said", "mentioned", "noted"], RE.wb]

def mirrorPat4 : RE :=
  -- \bI (also|too) (feel|think|believe)\b  (searched on lowered text, so the
  -- capital I makes this pattern never fire — transcribed as written)
  REseq [RE.wb, RElit "I ", RElits ["also", "too"], RElit " ",
    RElits ["feel", "think", "believe"], RE.wb]

/-- self.mirroring_phrases -/
def mirroringPhrases : List RE :=
  [mirrorPat1, mirrorPat2, mirrorPat3, mirrorPat4]

-- emoji_symbol_patterns, in source order.
def emojiPat1 : RE := REplus (REchar '∞')  -- ∞+

def emojiPat2 : RE := REplus (REcharIn "♥❤💕💖✨🌟⭐💫🌙☀️🕊️🦋🌈")  -- [♥...🌈]+

def emojiPat3 : RE := REplus (REcharIn "🙏💭💫✨")  -- [🙏💭💫✨]+

def emojiPat4 : RE :=  -- ^[^\w\s]+$
  REseq [RE.bos, REplus REnonWordNonSpace, RE.eos]

/-- self.emoji_symbol_patterns -/
def emojiSymbolPatterns : List RE :=
  [emojiPat1, emojiPat2, emojiPat3, emojiPat4]

-- trivial_question_patterns, in source order (used with re.match).
def trivialQPat1 : RE :=
  -- ^(right|really|yes|no|okay|ok|sure|correct|true|false)\s*\?$
  REseq [RE.bos, RElits ["right", "really", "yes", "no", "okay", "ok", "sure",
    "correct", "true", "false"], REwsStar, REchar '?', RE.eos]

def trivialQPat2 : RE :=
  -- ^(you know|you see|see|understand|got it|make sense)\s*\?$
  REseq [RE.bos, RElits ["you know", "you see", "see", "understand", "got it",
    "make sense"], REwsStar, REchar '?', RE.eos]

def trivialQPat3 : RE :=
  -- ^(isn't it|aren't they|don't you think|wouldn't you say)\s*\?$
  REseq [RE.bos, RElits ["isn't it", "aren't they", "don't you think",
    "wouldn't you say"], REwsStar, REchar '?', RE.eos]

def trivialQPat4 : RE :=
  -- ^(hm+|uh+|ah+|oh+)\s*\?$
  REseq [RE.bos,
    REalts [REseq [REchar 'h', REplus (REchar 'm')],
      REseq [REchar 'u', REplus (REchar 'h')],
      REseq [REchar 'a', REplus (REchar 'h')],
      REseq [REchar 'o', REplus (REchar 'h')]],
    REwsStar, REchar '?', RE.eos]

/-- self.trivial_question_patterns -/
def trivialQuestionPatterns : List RE :=
  [trivialQPat1, trivialQPat2, trivialQPat3, trivialQPat4]

/-- re.findall pattern for future-oriented verbs in analyze_messages:
\b(will|would|could|might|planning|designing|future)\b -/
def futureCountPattern : RE :=
  REseq [RE.wb, RElits ["will", "would", "could", "might", "planning",
    "designing", "future"], RE.wb]

/-- re.findall pattern for past-oriented verbs in analyze_messages:
\b(was|were|had|did|used to|reflected|discussed)\b -/
def pastCountPattern : RE :=
  REseq [RE.wb, RElits ["was", "were", "had", "did", "used to", "reflected",
    "discussed"], RE.wb]

/-- self.escalation_words['moderate'] -/
def escalationModerate : List String :=
  ["meaningful", "significant", "important", "valuable", "insightful"]

/-- self.escalation_words['high'] -/
def escalationHigh : List String :=
  ["profound", "extraordinary", "remarkable", "incredible", "amazing"]

/-- self.escalation_words['extreme'] -/
def escalationExtreme : List String :=
  ["transcendent", "infinite", "eternal", "ineffable", "ultimate", "absolute"]

/-- The threshold knobs read by the embedded detectors (DEFAULT_THRESHOLDS
keys that the regex-only analysis paths consume). Float values are embedded
as exact rationals. -/
structure Thresholds where
  escalation_threshold : ℚ
  mystical_avg_line_length : ℚ
  mystical_word_count : Nat
  peer_pressure_min_responders : Nat
  peer_pressure_intensity_low : ℚ
  peer_pressure_intensity_medium : ℚ
  prevention_content_threshold : Nat
  high_question_density : ℚ
  recovery_duration_threshold : ℚ
  recovery_proportion_threshold : ℚ
  conclusion_duration_threshold : ℚ
  conclusion_proportion_threshold : ℚ

/-- DEFAULT_THRESHOLDS. -/
def defaultThresholds : Thresholds where
  escalation_threshold := 3/10
  mystical_avg_line_length := 40
  mystical_word_count := 2
  peer_pressure_min_responders := 2
  peer_pressure_intensity_low := 1/50
  peer_pressure_intensity_medium := 1/20
  prevention_content_threshold := 3
  high_question_density := 3/20
  recovery_duration_threshold := 10
  recovery_proportion_threshold := 1/5
  conclusion_duration_threshold := 20
  conclusion_proportion_threshold := 3/10

/-- A conversation message. The timestamp is the parsed instant in epoch
seconds (datetime parsing itself is Python library code outside the core). -/
structure Msg where
  participantId : String
  participantType : String
  content : String
  timestamp : ℚ
  deriving Repr, DecidableEq

/-- The record messages[i].get(...) produces when i is out of range never
arises in the source (every loop is bounded by len(messages)); a neutral
message keeps the embedding total. -/
def noMsg : Msg := ⟨"", "", "", 0⟩

/-- messages[i]. -/
def msgAt (msgs : List Msg) (i : Nat) : Msg :=
  msgs.getD i noMsg

/-- compute_ensemble_score(regex_score, bert_score, weight_bert=0.6) of
ConversationAnalyzer, including the `not self.use_nlp or bert_score is None`
early return of the raw symbolic score. -/
def computeEnsembleScore (useNlp : Bool) (regexScore : ℚ) (bertScore : Option ℚ) : ℚ :=
  if !useNlp || bertScore.isNone then regexScore
  else
    let regexNorm := min 1 regexScore
    let bertNorm := min 1 (bertScore.getD 0)
    (3/5) * bertNorm + (1 - 3/5) * regexNorm

/-- The fixed 0.5 cut every fused yes/no decision applies to the ensemble
score. -/
def ensembleDecision (useNlp : Bool) (regexScore : ℚ) (bertScore : Option ℚ) : Bool :=
  computeEnsembleScore useNlp regexScore bertScore > 1/2

/-- Per-message escalation intensity in detect_competitive_escalation: the
maximum tier over escalation words contained in the message
(moderate = 1, high = 2, extreme = 3; 0 when none occurs). -/
def currentIntensity (content : String) : Nat :=
  let m := if escalationModerate.any (fun w => containsSub content w) then 1 else 0
  let h := if escalationHigh.any (fun w => containsSub content w) then 2 else 0
  let e := if escalationExtreme.any (fun w => containsSub content w) then 3 else 0
  max m (max h e)

/-- The regex walk of detect_competitive_escalation over indices
[i, i + steps) (breaking past len(messages)): counts the turns whose
intensity strictly increases over the previous turn, accumulates the
intensity jumps, and adds 1 per turn matching a competitive-closure
pattern. -/
def escWalk (msgs : List Msg) (startIdx : Nat) :
    Nat → Nat → Nat → Nat → Int → Nat × Int
  | 0, _, _, count, score => (count, score)
  | steps + 1, i, prevIntensity, count, score =>
    if i ≥ msgs.length then (count, score)
    else
      let content := (msgAt msgs i).content |> pyLower
      let cur := currentIntensity content
      let (count2, score2) :=
        if i > startIdx ∧ cur > prevIntensity then
          (count + 1, score + ((cur : Int) - (prevIntensity : Int)))
        else (count, score)
      let score3 :=
        if competitiveClosurePatterns.any (fun p => reSearch p content) then score2 + 1
        else score2
      escWalk msgs startIdx steps (i + 1) cur count2 score3

/-- detect_competitive_escalation(messages, start_idx, end_idx), regex-only
path: one-upsmanship fires when the escalation-turn count reaches
escalation_threshold times the window size. -/
def detectCompetitiveEscalation (th : Thresholds) (msgs : List Msg)
    (startIdx endIdx : Nat) : Bool × Int :=
  if endIdx - startIdx < 2 then (false, 0)
  else
    let (count, score) := escWalk msgs startIdx (endIdx - startIdx) startIdx 0 0 0
    let messagesInRange := endIdx - startIdx
    (decide ((count : ℚ) ≥ (messagesInRange : ℚ) * th.escalation_threshold), score)

/-- is_mystical_content(message_text), regex-only path: emoji/symbol
patterns on the raw text, the short-line/mystical-word poetry check, or at
least two mystical-pattern families matching the lowered text. -/
def isMysticalContent (th : Thresholds) (text : String) : Bool :=
  let emojiOnly := emojiSymbolPatterns.any (fun p => reSearch p text)
  let lines := pySplitOn '\n' (pyStrip text)
  let poetry :=
    if lines.length ≥ 3 then
      let nonEmptyLines := lines.filter (fun l => pyStrip l ≠ "")
      if nonEmptyLines ≠ [] then
        let avgLineLength : ℚ :=
          ((nonEmptyLines.map (fun l => (pyLen (pyStrip l) : ℚ))).sum) /
            (nonEmptyLines.length : ℚ)
        let mysticalWordCount :=
          (nonEmptyLines.map (fun l =>
            (["infinite", "eternal", "void", "silence", "being", "oneness"].filter
              (fun w => containsSub (pyLower l) w)).length)).sum
        decide (avgLineLength < th.mystical_avg_line_length) &&
          decide (mysticalWordCount ≥ th.mystical_word_count)
      else false
    else false
  let mysticalMatches :=
    (mysticalBreakdownPatterns.filter (fun p => reSearch p (pyLower text))).length
  emojiOnly || poetry || decide (mysticalMatches ≥ 2)

/-- is_substantive_question(text): ends with ?, at least 10 characters
after stripping, and matches no trivial-question pattern. -/
def isSubstantiveQuestion (text : String) : Bool :=
  if !(pyEndsWith (pyStrip text) '?') then false
  else if pyLen (pyStrip text) < 10 then false
  else
    let textLower := pyLower (pyStrip text)
    !(trivialQuestionPatterns.any (fun p => reMatch p textLower))

/-- detect_peer_pressure_response(messages, trigger_idx), regex-only path:
collect participants other than the trigger's author who, within the five
turns after the trigger, mirror it or show a closure vibe; peer pressure
fires when the number of distinct responders reaches
peer_pressure_min_responders. -/
def detectPeerPressureResponse (th : Thresholds) (msgs : List Msg)
    (triggerIdx : Nat) : Bool × List String :=
  if triggerIdx ≥ msgs.length - 1 then (false, [])
  else
    let triggerParticipant := (msgAt msgs triggerIdx).participantId
    let idxs := List.range' (triggerIdx + 1)
      (min (triggerIdx + 6) msgs.length - (triggerIdx + 1))
    let responders := idxs.foldl (fun acc i =>
      let msg := msgAt msgs i
      let content := msg.content |> pyLower
      let participant := msg.participantId
      if participant == triggerParticipant then acc
      else
        let isMirroring := mirroringPhrases.any (fun p => reSearch p content)
        let hasClosureVibe := closureVibePatterns.any (fun p => reSearch p content)
        if isMirroring || hasClosureVibe then acc ++ [participant] else acc) []
    let uniqueResponders := responders.dedup.length
    (decide (uniqueResponders ≥ th.peer_pressure_min_responders), responders)

/-- The mutable locals of detect_breakdown_phase while walking the
message list. Start indices use the source's -1 sentinel; durations are the
phase1..phase4 cells written during the walk (phase5 is only written by the
finalization). -/
structure PhaseState where
  meta_reflection_started : Int
  peer_response_started : Int
  competitive_started : Int
  mystical_started : Int
  phase_start : Int
  phase1_duration : Int
  phase2_duration : Int
  phase3_duration : Int
  phase4_duration : Int
  current_phase : String
  meta_trigger_count : Nat
  breakdown_after_meta : Bool

/-- State before the first message. -/
def initPhaseState : PhaseState where
  meta_reflection_started := -1
  peer_response_started := -1
  competitive_started := -1
  mystical_started := -1
  phase_start := 0
  phase1_duration := 0
  phase2_duration := 0
  phase3_duration := 0
  phase4_duration := 0
  current_phase := "sustained_engagement"
  meta_trigger_count := 0
  breakdown_after_meta := false

/-- The per-turn meta-reflection trigger of detect_breakdown_phase: the
ensemble decision over the regex match of the lowered content (regex-only
mode passes bert_meta = 0). -/
def metaTrigAt (msgs : List Msg) (i : Nat) : Bool :=
  let content := (msgAt msgs i).content |> pyLower
  let regexMeta := metaReflectionPatterns.any (fun p => reSearch p content)
  let bertMeta : ℚ := 0
  ensembleDecision false (if regexMeta then 1 else 0) (some bertMeta)

/-- Phase 1→2 block of the loop body. -/
def phaseStepMeta (msgs : List Msg) (i : Nat) (s : PhaseState) : PhaseState :=
  if metaTrigAt msgs i then
    if s.meta_reflection_started = -1 then
      { s with
        meta_reflection_started := i
        phase1_duration := (i : Int) - s.phase_start
        phase_start := i
        current_phase := "meta_reflection"
        meta_trigger_count := s.meta_trigger_count + 1 }
    else
      { s with meta_trigger_count := s.meta_trigger_count + 1 }
  else s

/-- Phase 2→3 block of the loop body: once meta-reflection started and
peer response has not, run the peer-pressure check from the
meta-reflection turn. -/
def phaseStepPeer (th : Thresholds) (msgs : List Msg) (s : PhaseState) : PhaseState :=
  if s.meta_reflection_started > -1 ∧ s.peer_response_started = -1 then
    if (detectPeerPressureResponse th msgs s.meta_reflection_started.toNat).1 then
      let p := s.meta_reflection_started + 1
      { s with
        peer_response_started := p
        phase2_duration := p - s.phase_start
        phase_start := p
        current_phase := "peer_response"
        breakdown_after_meta := true }
    else s
  else s

/-- Phase 3→4 block of the loop body: from two turns past the anchor,
check one-upsmanship over [anchor, i]. -/
def phaseStepComp (th : Thresholds) (msgs : List Msg) (i : Nat) (s : PhaseState) :
    PhaseState :=
  let peerIdx : Int := if s.peer_response_started > -1 then s.peer_response_started else 0
  let metaIdx : Int := if s.meta_reflection_started > -1 then s.meta_reflection_started else 0
  if (i : Int) ≥ max peerIdx metaIdx + 2 then
    let startCheck : Int := max (max s.peer_response_started s.meta_reflection_started) 0
    let esc := detectCompetitiveEscalation th msgs startCheck.toNat (i + 1)
    if esc.1 ∨ esc.2 > 3 then
      if s.competitive_started = -1 then
        let c := startCheck + 1
        { s with
          competitive_started := c
          phase3_duration :=
            if s.peer_response_started > -1 then c - s.peer_response_started
            else s.phase3_duration
          phase2_duration :=
            if s.peer_response_started > -1 then s.phase2_duration
            else if s.meta_reflection_started > -1 then c - s.meta_reflection_started
            else s.phase2_duration
          phase_start := c
          current_phase := "competitive_escalation" }
      else s
    else s
  else s

/-- Phase 4→5 block of the loop body: mystical-content classification of
the raw message text, with the duration fallback cascade
mystical→competitive→peer→meta→phase1. -/
def phaseStepMyst (th : Thresholds) (msgs : List Msg) (i : Nat) (s : PhaseState) :
    PhaseState :=
  if isMysticalContent th (msgAt msgs i).content then
    if s.mystical_started = -1 then
      { s with
        mystical_started := i
        phase4_duration :=
          if s.competitive_started > -1 then (i : Int) - s.competitive_started
          else s.phase4_duration
        phase3_duration :=
          if s.competitive_started > -1 then s.phase3_duration
          else if s.peer_response_started > -1 then (i : Int) - s.peer_response_started
          else s.phase3_duration
        phase2_duration :=
          if s.competitive_started > -1 ∨ s.peer_response_started > -1 then
            s.phase2_duration
          else if s.meta_reflection_started > -1 then (i : Int) - s.meta_reflection_started
          else s.phase2_duration
        phase1_duration :=
          if s.competitive_started > -1 ∨ s.peer_response_started > -1 ∨
              s.meta_reflection_started > -1 then s.phase1_duration
          else (i : Int)
        phase_start := i
        current_phase := "mystical_breakdown" }
    else s
  else s

/-- One iteration of the detect_breakdown_phase loop, in source order. -/
def phaseStep (th : Thresholds) (msgs : List Msg) (s : PhaseState) (i : Nat) :
    PhaseState :=
  phaseStepMyst th msgs i (phaseStepComp th msgs i (phaseStepPeer th msgs (phaseStepMeta msgs i s)))

/-- State after processing the first k messages. -/
def phaseRun (th : Thresholds) (msgs : List Msg) (k : Nat) : PhaseState :=
  (List.range k).foldl (phaseStep th msgs) initPhaseState

/-- Result of detect_breakdown_phase: the phases dict (first-trigger turn
per phase, 0 when never entered), the current phase, the five durations
after finalization, and the full-pattern flag. -/
structure PhaseOutput where
  sustained_engagement : Int
  meta_reflection_trigger : Int
  peer_response : Int
  competitive_escalation : Int
  mystical_breakdown : Int
  current_breakdown_phase : String
  phase1_duration : Int
  phase2_duration : Int
  phase3_duration : Int
  phase4_duration : Int
  phase5_duration : Int
  full_5_phase_pattern : Bool
  meta_causes_breakdown : Nat
  meta_trigger_count : Nat

/-- detect_breakdown_phase(messages): run the walk, then set the final
phase's duration through the elif chain over the most advanced phase
reached. -/
def detectBreakdownPhase (th : Thresholds) (msgs : List Msg) : PhaseOutput :=
  let s := phaseRun th msgs msgs.length
  let n : Int := (msgs.length : Int)
  let fin :=
    if s.mystical_started > -1 then
      (s.phase1_duration, s.phase2_duration, s.phase3_duration, s.phase4_duration,
        n - s.mystical_started)
    else if s.competitive_started > -1 then
      (s.phase1_duration, s.phase2_duration, s.phase3_duration,
        n - s.competitive_started, 0)
    else if s.peer_response_started > -1 then
      (s.phase1_duration, s.phase2_duration, n - s.peer_response_started,
        s.phase4_duration, 0)
    else if s.meta_reflection_started > -1 then
      (s.phase1_duration, n - s.meta_reflection_started, s.phase3_duration,
        s.phase4_duration, 0)
    else
      (n, s.phase2_duration, s.phase3_duration, s.phase4_duration, 0)
  let metaVal : Int := if s.meta_reflection_started > -1 then s.meta_reflection_started else 0
  let peerVal : Int := if s.peer_response_started > -1 then s.peer_response_started else 0
  let compVal : Int := if s.competitive_started > -1 then s.competitive_started else 0
  let mystVal : Int := if s.mystical_started > -1 then s.mystical_started else 0
  let phasesDetected :=
    ([0, metaVal, peerVal, compVal, mystVal].filter (fun t => t > 0)).length
  { sustained_engagement := 0
    meta_reflection_trigger := metaVal
    peer_response := peerVal
    competitive_escalation := compVal
    mystical_breakdown := mystVal
    current_breakdown_phase := s.current_phase
    phase1_duration := fin.1
    phase2_duration := fin.2.1
    phase3_duration := fin.2.2.1
    phase4_duration := fin.2.2.2.1
    phase5_duration := fin.2.2.2.2
    full_5_phase_pattern := phasesDetected ≥ 4
    meta_causes_breakdown := if s.breakdown_after_meta then 1 else 0
    meta_trigger_count := s.meta_trigger_count }

/-- Python round(x, n) on the embedded rationals: round half to even at
the n-th decimal place. (Python rounds binary floats; the two agree at
every value a claim in this file evaluates.) -/
def pyRound (n : Nat) (x : ℚ) : ℚ :=
  let m : Nat := 10 ^ n
  let y := x * mkRat (m : Int) 1
  let fl := Rat.floor y
  let r := y - mkRat fl 1
  let z :=
    if r < mkRat 1 2 then fl
    else if mkRat 1 2 < r then fl + 1
    else if fl % 2 = 0 then fl else fl + 1
  mkRat z m

/-- One influence edge recorded by the first pass of
detect_bidirectional_influence. -/
structure InfluenceEvent where
  influenced : String
  at_turn : Nat
  responder_turns : List Nat
  deriving Repr, DecidableEq

/-- participant_influence_map[trigger].append(event): association list in
first-insertion order (Python dict iteration order). -/
def addInfluence : List (String × List InfluenceEvent) → String → InfluenceEvent →
    List (String × List InfluenceEvent)
  | [], tp, ev => [(tp, [ev])]
  | (p, evs) :: rest, tp, ev =>
    if p == tp then (p, evs ++ [ev]) :: rest
    else (p, evs) :: addInfluence rest tp ev

/-- First pass of detect_bidirectional_influence: for every turn (except
the last) whose lowered content matches a closure-vibe or
competitive-closure pattern, run peer-pressure detection and record one
edge per responder. -/
def influencePass1 (th : Thresholds) (msgs : List Msg) :
    List (String × List InfluenceEvent) :=
  (List.range (msgs.length - 1)).foldl (fun acc i =>
    let content := (msgAt msgs i).content |> pyLower
    let triggerParticipant := (msgAt msgs i).participantId
    let isTrigger := (closureVibePatterns ++ competitiveClosurePatterns).any
      (fun p => reSearch p content)
    if isTrigger then
      let pp := detectPeerPressureResponse th msgs i
      if pp.1 then
        pp.2.foldl (fun acc2 responder =>
          addInfluence acc2 triggerParticipant
            { influenced := responder
              at_turn := i
              responder_turns := (List.range' (i + 1) (min (i + 6) msgs.length - (i + 1))).filter
                (fun j => (msgAt msgs j).participantId == responder) }) acc
      else acc
    else acc) []

/-- One bidirectional event of the second pass. -/
structure BidirEvent where
  participant_a : String
  participant_b : String
  first_influence_turn : Nat
  second_influence_turn : Nat
  turn_gap : Nat
  deriving Repr, DecidableEq

/-- tuple(sorted([a, b])). -/
def pairKeyOf (a b : String) : String × String :=
  if a ≤ b then (a, b) else (b, a)

/-- The unordered pair key of a recorded bidirectional event. -/
def eventKey (e : BidirEvent) : String × String :=
  pairKeyOf e.participant_a e.participant_b

/-- Second pass of detect_bidirectional_influence: for every edge A→B not
yet covered by its sorted pair key, look for the first edge B→A; when one
exists record a single bidirectional event and mark the pair processed. -/
def influencePass2 (m : List (String × List InfluenceEvent)) :
    List BidirEvent × List (String × String) :=
  m.foldl (fun st entry =>
    entry.2.foldl (fun st2 ev =>
      let pa := entry.1
      let pb := ev.influenced
      let turnAB := ev.at_turn
      let key := pairKeyOf pa pb
      if st2.2.contains key then st2
      else
        match m.lookup pb with
        | none => st2
        | some evsB =>
          match evsB.find? (fun e => e.influenced == pa) with
          | none => st2
          | some evB =>
            let turnBA := evB.at_turn
            let fst2 := if turnAB < turnBA then (turnAB, turnBA) else (turnBA, turnAB)
            (st2.1 ++ [{ participant_a := pa
                         participant_b := pb
                         first_influence_turn := fst2.1
                         second_influence_turn := fst2.2
                         turn_gap := ((turnBA : Int) - (turnAB : Int)).natAbs }],
             st2.2 ++ [key])) st) ([], [])

/-- The numeric summary detect_bidirectional_influence returns. -/
structure BidirResults where
  bidirectional_influence_detected : Nat
  bidirectional_event_count : Nat
  bidirectional_pairs : Nat
  avg_bidirectional_turn_gap : ℚ
  min_bidirectional_turn_gap : Nat
  max_bidirectional_turn_gap : Nat

/-- detect_bidirectional_influence(messages): both passes plus the
aggregate statistics, returning the summary and the raw event list. -/
def detectBidirectionalInfluence (th : Thresholds) (msgs : List Msg) :
    BidirResults × List BidirEvent :=
  let m := influencePass1 th msgs
  let pass2 := influencePass2 m
  let events := pass2.1
  let gaps : List Nat := events.map (·.turn_gap)
  ({ bidirectional_influence_detected := if events ≠ [] then 1 else 0
     bidirectional_event_count := events.length
     bidirectional_pairs := pass2.2.length
     avg_bidirectional_turn_gap :=
       if events ≠ [] then pyRound 1 ((gaps.map (fun g => (g : ℚ))).sum / (gaps.length : ℚ))
       else 0
     min_bidirectional_turn_gap :=
       match gaps with
       | [] => 0
       | g :: gs => gs.foldl min g
     max_bidirectional_turn_gap :=
       match gaps with
       | [] => 0
       | g :: gs => gs.foldl max g }, events)

/-- The subset of the ~60 analyze_messages result fields that the claims
reach, each computed exactly as in the source (regex-only mode). The
source key mean_forward_ratio is embedded as mean_forward_pct. -/
structure MessageResults where
  current_breakdown_phase : String
  meta_reflection_turn : Int
  competitive_escalation_turn : Int
  mystical_breakdown_turn : Int
  full_5_phase_pattern : Nat
  meta_causes_breakdown : Nat
  meta_trigger_count : Nat
  phase1_duration : Int
  phase2_duration : Int
  phase3_duration : Int
  phase4_duration : Int
  phase5_duration : Int
  avg_response_latency : ℚ
  first_meta_reflection_turn : Int
  total_meta_reflections : Nat
  meta_reflection_density : ℚ
  peer_pressure_detected : Nat
  peer_pressure_event_count : Nat
  closure_triggers_count : Nat
  peer_pressure_intensity : ℚ
  peer_pressure_intensity_category : String
  closure_vibe_count : Nat
  first_closure_vibe_turn : Int
  bidirectional_influence_detected : Nat
  bidirectional_event_count : Nat
  bidirectional_pairs : Nat
  mystical_language_count : Nat
  mystical_density : ℚ
  peer_mirroring_count : Nat
  mirroring_coefficient : ℚ
  mean_forward_pct : ℚ
  substantive_question_count : Nat
  question_density : ℚ
  breakdown_confidence : String
  breakdown_occurred : Nat

/-- The response latencies of analyze_messages: the timestamp deltas of
consecutive message pairs (timestamp parsing is library code; the delta in
seconds is the difference of the parsed instants). -/
def latenciesOf (msgs : List Msg) : List ℚ :=
  (List.range' 1 (msgs.length - 1)).map
    (fun i => (msgAt msgs i).timestamp - (msgAt msgs (i - 1)).timestamp)

/-- meta_turns of analyze_messages: the turns whose lowered content clears
the ensemble meta-reflection decision (regex-only). -/
def metaTurnsOf (msgs : List Msg) : List Nat :=
  (List.range msgs.length).filter (fun i =>
    let content := (msgAt msgs i).content |> pyLower
    let regexMatch := metaReflectionPatterns.any (fun p => reSearch p content)
    ensembleDecision false (if regexMatch then 1 else 0) (some 0))

/-- closure_triggers of analyze_messages: the turns whose lowered content
clears the ensemble closure-vibe decision (regex-only). -/
def closureTriggersOf (msgs : List Msg) : List Nat :=
  (List.range msgs.length).filter (fun i =>
    let content := (msgAt msgs i).content |> pyLower
    let regexClosure := closureVibePatterns.any (fun p => reSearch p content)
    ensembleDecision false (if regexClosure then 1 else 0) (some 0))

/-- peer_pressure_events of analyze_messages: the closure triggers whose
peer-pressure check fires. -/
def peerPressureEventsOf (th : Thresholds) (msgs : List Msg) : List Nat :=
  (closureTriggersOf msgs).filter (fun i => (detectPeerPressureResponse th msgs i).1)

/-- peer_pressure_intensity before rounding: events / total messages. -/
def peerIntensityOf (th : Thresholds) (msgs : List Msg) : ℚ :=
  if peerPressureEventsOf th msgs ≠ [] ∧ msgs.length > 0 then
    ((peerPressureEventsOf th msgs).length : ℚ) / (msgs.length : ℚ)
  else 0

/-- mystical_count of analyze_messages. -/
def mysticalCountOf (th : Thresholds) (msgs : List Msg) : Nat :=
  (msgs.filter (fun m => isMysticalContent th m.content)).length

/-- mirroring_count of analyze_messages (turns 1.. whose lowered content
matches a mirroring phrase). -/
def mirroringCountOf (msgs : List Msg) : Nat :=
  ((List.range' 1 (msgs.length - 1)).filter (fun i =>
    mirroringPhrases.any (fun p => reSearch p ((msgAt msgs i).content |> pyLower)))).length

/-- future_count of analyze_messages (re.findall totals). -/
def futureCountOf (msgs : List Msg) : Nat :=
  (msgs.map (fun m => findallCount futureCountPattern (pyLower m.content))).sum

/-- past_count of analyze_messages (re.findall totals). -/
def pastCountOf (msgs : List Msg) : Nat :=
  (msgs.map (fun m => findallCount pastCountPattern (pyLower m.content))).sum

/-- forward_ratio of analyze_messages: future/(future+past), defaulting to
the neutral 0.5 when no directional verb occurs. -/
def forwardRatioOf (msgs : List Msg) : ℚ :=
  if futureCountOf msgs + pastCountOf msgs > 0 then
    (futureCountOf msgs : ℚ) / ((futureCountOf msgs + pastCountOf msgs : Nat) : ℚ)
  else mkRat 1 2

/-- substantive_question_count of analyze_messages. -/
def substantiveQuestionCountOf (msgs : List Msg) : Nat :=
  (msgs.filter (fun m => isSubstantiveQuestion m.content)).length

/-- The (breakdown_confidence, breakdown_occurred) pair assigned at the
end of analyze_messages. -/
def breakdownConfidenceOf (th : Thresholds) (msgs : List Msg) : String × Nat :=
  let po := detectBreakdownPhase th msgs
  if po.mystical_breakdown > 0 then ("clear", 1)
  else if po.competitive_escalation > 0 then ("partial", 1)
  else if po.meta_reflection_trigger > 0 ∧ (closureTriggersOf msgs).length > 3 then
    ("likely", 1)
  else ("no_breakdown", 0)

/-- analyze_messages(messages), regex-only mode, restricted to the fields
above. Every field mirrors its source lines: guards of the form
`if messages else 0` become emptiness tests, np.mean becomes an exact
rational mean, and round becomes pyRound. The metric computations are
split into the named helper definitions above so that a single field can
be evaluated without unfolding the whole record. -/
def analyzeMessages (th : Thresholds) (msgs : List Msg) : MessageResults where
  current_breakdown_phase := (detectBreakdownPhase th msgs).current_breakdown_phase
  meta_reflection_turn :=
    if (detectBreakdownPhase th msgs).meta_reflection_trigger > 0 then
      (detectBreakdownPhase th msgs).meta_reflection_trigger
    else -1
  competitive_escalation_turn :=
    if (detectBreakdownPhase th msgs).competitive_escalation > 0 then
      (detectBreakdownPhase th msgs).competitive_escalation
    else -1
  mystical_breakdown_turn :=
    if (detectBreakdownPhase th msgs).mystical_breakdown > 0 then
      (detectBreakdownPhase th msgs).mystical_breakdown
    else -1
  full_5_phase_pattern := if (detectBreakdownPhase th msgs).full_5_phase_pattern then 1 else 0
  meta_causes_breakdown := (detectBreakdownPhase th msgs).meta_causes_breakdown
  meta_trigger_count := (detectBreakdownPhase th msgs).meta_trigger_count
  phase1_duration := (detectBreakdownPhase th msgs).phase1_duration
  phase2_duration := (detectBreakdownPhase th msgs).phase2_duration
  phase3_duration := (detectBreakdownPhase th msgs).phase3_duration
  phase4_duration := (detectBreakdownPhase th msgs).phase4_duration
  phase5_duration := (detectBreakdownPhase th msgs).phase5_duration
  avg_response_latency :=
    if latenciesOf msgs ≠ [] then
      pyRound 2 ((latenciesOf msgs).sum / ((latenciesOf msgs).length : ℚ))
    else 0
  first_meta_reflection_turn :=
    match metaTurnsOf msgs with
    | [] => -1
    | t :: _ => t
  total_meta_reflections := (metaTurnsOf msgs).length
  meta_reflection_density :=
    if msgs ≠ [] then pyRound 3 (((metaTurnsOf msgs).length : ℚ) / (msgs.length : ℚ))
    else 0
  peer_pressure_detected := if peerPressureEventsOf th msgs ≠ [] then 1 else 0
  peer_pressure_event_count := (peerPressureEventsOf th msgs).length
  closure_triggers_count := (closureTriggersOf msgs).length
  peer_pressure_intensity :=
    if peerPressureEventsOf th msgs ≠ [] ∧ msgs.length > 0 then
      pyRound 3 (peerIntensityOf th msgs)
    else 0
  peer_pressure_intensity_category :=
    if peerPressureEventsOf th msgs ≠ [] ∧ msgs.length > 0 then
      if peerIntensityOf th msgs < th.peer_pressure_intensity_low then "low"
      else if peerIntensityOf th msgs < th.peer_pressure_intensity_medium then "medium"
      else "high"
    else "none"
  closure_vibe_count := (closureTriggersOf msgs).length
  first_closure_vibe_turn :=
    match closureTriggersOf msgs with
    | [] => -1
    | t :: _ => t
  bidirectional_influence_detected :=
    (detectBidirectionalInfluence th msgs).1.bidirectional_influence_detected
  bidirectional_event_count :=
    (detectBidirectionalInfluence th msgs).1.bidirectional_event_count
  bidirectional_pairs := (detectBidirectionalInfluence th msgs).1.bidirectional_pairs
  mystical_language_count := mysticalCountOf th msgs
  mystical_density :=
    if msgs ≠ [] then pyRound 3 ((mysticalCountOf th msgs : ℚ) / (msgs.length : ℚ))
    else 0
  peer_mirroring_count := mirroringCountOf msgs
  mirroring_coefficient :=
    if msgs.length > 1 then
      pyRound 3 ((mirroringCountOf msgs : ℚ) / ((msgs.length - 1 : Nat) : ℚ))
    else 0
  mean_forward_pct := pyRound 1 (forwardRatioOf msgs * 100)
  substantive_question_count := substantiveQuestionCountOf msgs
  question_density :=
    if msgs ≠ [] then
      pyRound 3 ((substantiveQuestionCountOf msgs : ℚ) / (msgs.length : ℚ))
    else 0
  breakdown_confidence := (breakdownConfidenceOf th msgs).1
  breakdown_occurred := (breakdownConfidenceOf th msgs).2

/-!
SnapshotAnalyzer: analyze_snapshots and analyze_recovery_dynamics over the
moderator's analysis history, and the final merge of
parse_and_analyze_json_with_thresholds.
-/

/-- One participant entry of a snapshot's participantDynamics mapping
(dict keys become the participant field; missing style/perspective/
contribution keys become empty strings as with dict.get(..., '')). -/
structure ParticipantDynamic where
  participant : String
  style : String
  perspective : String
  contribution : String
  deriving Repr, DecidableEq

/-- The structured fields of snapshot['analysis'] the analyzers read;
a missing key is None. -/
structure SnapshotAnalysis where
  conversationPhase : Option String
  philosophicalDepth : Option String
  emergentThemes : List String
  tensions : List String
  convergences : List String
  keyInsights : List String
  currentDirection : Option String
  participantDynamics : List ParticipantDynamic
  deriving Repr, DecidableEq

/-- One moderator snapshot. analysisText carries the free text
str(snapshot['analysis']) that the keyword searches scan; the dict
rendering itself is Python library behavior, so the embedding carries the
rendered text as an input field. -/
structure Snapshot where
  messageCountAtAnalysis : Nat
  analysis : SnapshotAnalysis
  analysisText : String
  deriving Repr, DecidableEq

/-- 'conclusion' in phase.lower(). -/
def isConclusionPhase (phase : String) : Bool :=
  containsSub (pyLower phase) "conclusion"

/-- The (messageCountAtAnalysis, conversationPhase) timeline
analyze_snapshots builds (missing phases become 'unknown'). -/
def phaseTimelineOf (history : List Snapshot) : List (Nat × String) :=
  history.map (fun sn => (sn.messageCountAtAnalysis, sn.analysis.conversationPhase.getD "unknown"))

/-- The period-walk locals of analyze_recovery_dynamics. -/
structure PeriodState where
  in_conclusion : Bool
  period_start : Int
  recovery_attempts : Nat
  conclusion_periods : List Int
  non_conclusion_periods : List Int
  recovery_durations : List Int
  deriving Repr, DecidableEq

/-- The conclusion/non-conclusion period walk of
analyze_recovery_dynamics (the loop over the enumerated timeline plus the
final-period append). -/
def periodWalk (timeline : List (Nat × String)) : PeriodState :=
  let w := timeline.enum.foldl (fun st it =>
    let i := it.1
    let turn := it.2.1
    let phase := it.2.2
    if isConclusionPhase phase then
      if !st.in_conclusion then
        { st with
          non_conclusion_periods :=
            if i > 0 then st.non_conclusion_periods ++ [(turn : Int) - st.period_start]
            else st.non_conclusion_periods
          in_conclusion := true
          period_start := turn }
      else st
    else
      if st.in_conclusion then
        { st with
          recovery_attempts := st.recovery_attempts + 1
          conclusion_periods := st.conclusion_periods ++ [(turn : Int) - st.period_start]
          recovery_durations := st.recovery_durations ++ [(turn : Int) - st.period_start]
          in_conclusion := false
          period_start := turn }
      else st)
    { in_conclusion := false
      period_start := 0
      recovery_attempts := 0
      conclusion_periods := []
      non_conclusion_periods := []
      recovery_durations := [] }
  match timeline.getLast? with
  | none => w
  | some t =>
    if w.in_conclusion then
      { w with conclusion_periods := w.conclusion_periods ++ [(t.1 : Int) - w.period_start] }
    else
      { w with non_conclusion_periods := w.non_conclusion_periods ++ [(t.1 : Int) - w.period_start] }

/-- last_conclusion_exit of analyze_recovery_dynamics: the backwards loop
stops at the last snapshot whose phase is a conclusion, leaving the index
of the first element of the trailing non-conclusion block (-1 when the
final snapshot is still a conclusion). -/
def lastConclusionExit (timeline : List (Nat × String)) : Int :=
  let suffix := timeline.reverse.takeWhile (fun t => !isConclusionPhase t.2)
  if suffix.length = 0 then -1 else ((timeline.length - suffix.length : Nat) : Int)

/-- Maximum of a list of ints (only applied to non-empty lists, matching
Python max). -/
def maxIntList : List Int → Int
  | [] => 0
  | x :: xs => xs.foldl max x

/-- sustained_recovery of analyze_recovery_dynamics: after the last
conclusion exit, the remaining stretch exceeds recovery_duration_threshold
turns, or its proportion of the remaining conversation exceeds
recovery_proportion_threshold. (recovery_sustained_duration and
remaining_conv are the same expression in the source.) -/
def sustainedRecovery (th : Thresholds) (timeline : List (Nat × String)) : Bool :=
  let w := periodWalk timeline
  if w.recovery_attempts > 0 then
    let lce := lastConclusionExit timeline
    if lce > -1 then
      let lastTurn : Int := ((timeline.getLast?.map (·.1)).getD 0 : Nat)
      let exitTurn : Int := (((timeline.get? lce.toNat).map (·.1)).getD 0 : Nat)
      let recoverySustainedDuration := lastTurn - exitTurn
      let remainingConv := lastTurn - exitTurn
      decide ((recoverySustainedDuration : ℚ) > th.recovery_duration_threshold) ||
        (decide (remainingConv > 0) &&
          decide ((recoverySustainedDuration : ℚ) / (remainingConv : ℚ) >
            th.recovery_proportion_threshold))
    else false
  else false

/-- phase_changes of analyze_recovery_dynamics: the number of adjacent
timeline pairs whose conclusion flags differ (the source counts indices
i ≥ 1 with flag(i) ≠ flag(i-1), which is the same quantity). -/
def phaseChangesOf (timeline : List (Nat × String)) : Nat :=
  ((timeline.zip timeline.tail).filter
    (fun p => isConclusionPhase p.1.2 != isConclusionPhase p.2.2)).length

/-- Any snapshot's analysis text mentions 'mystical'. -/
def hasMysticalBreakdown (history : List Snapshot) : Bool :=
  history.any (fun sn => containsSub (pyLower sn.analysisText) "mystical")

/-- Some snapshot's analysis text mentions both 'question' and 'recovery'. -/
def hasQuestionRecovery (history : List Snapshot) : Bool :=
  history.any (fun sn =>
    containsSub (pyLower sn.analysisText) "question" &&
      containsSub (pyLower sn.analysisText) "recovery")

/-- The outcome cascade of analyze_recovery_dynamics (first matching rule
wins; outcome is initialized to 'no_breakdown'). -/
def recoveryOutcome (th : Thresholds) (timeline : List (Nat × String))
    (history : List Snapshot) : String :=
  let w := periodWalk timeline
  let conclusionEntries := timeline.filter (fun t => isConclusionPhase t.2)
  let sustained := sustainedRecovery th timeline
  if hasMysticalBreakdown history ∨
      (w.conclusion_periods ≠ [] ∧ maxIntList w.conclusion_periods > 30) then
    if sustained ∨ hasQuestionRecovery history then "recovered" else "breakdown"
  else if w.recovery_attempts = 0 ∧ conclusionEntries = [] then "no_breakdown"
  else if w.recovery_attempts > 0 ∧ sustained then "recovered"
  else if phaseChangesOf timeline ≥ 3 then "resisted"
  else if conclusionEntries ≠ [] ∧ w.recovery_attempts = 0 then "breakdown"
  else "no_breakdown"

/-- The snapshot metrics that reach the final merge. -/
structure SnapshotMetrics where
  conversation_outcome : String
  recovery_attempts : Nat
  sustained_recovery : Nat
  phase_oscillations : Nat
  reached_conclusion : Nat
  has_transcendent_conclusion : Nat
  has_integration_conclusion : Nat
  breakdown_indicators_in_analysis : Nat
  closure_language_in_analysis : Nat
  transcendent_descriptors_count : Nat
  closure_theme_count : Nat
  silence_theme_count : Nat
  closure_dynamics_count : Nat
  deriving Repr, DecidableEq

/-- The closure_indicators keyword list of analyze_snapshots, duplicates
included (the source list repeats 'interpretation' and 'synthesis', so a
snapshot mentioning them counts them several times). -/
def closureIndicatorWords : List String :=
  ["closing", "interpretation", "ending", "concluding", "final", "interpretation",
   "completion", "synthesis", "closure", "wrapping up", "coming to an end",
   "dissolution", "dissolving", "fading", "silence", "stillness",
   "transcendent", "interpretation", "poetic", "synthesis", "symbolic"]

/-- phase_sequence of analyze_snapshots: consecutive duplicates collapsed. -/
def phaseSequenceOf (phases : List String) : List String :=
  phases.foldl (fun acc phase =>
    if acc = [] ∨ acc.getLast? ≠ some phase then acc ++ [phase] else acc) []

/-- breakdown_indicators_in_analysis of analyze_snapshots: per snapshot,
one point for a conclusion/transcendent/integration phase, one per closure
key insight, one for a concluding currentDirection, one for competitive
language in the analysis text, and one per closure-flavored tension. -/
def breakdownIndicatorsOf (history : List Snapshot) : Nat :=
  (history.map (fun sn =>
    let phase := sn.analysis.conversationPhase.getD ""
    let b1 := if ["conclusion", "transcendent", "integration"].any
        (fun t => containsSub (pyLower phase) t) then 1 else 0
    let b2 := (sn.analysis.keyInsights.filter (fun ins =>
      ["ending", "silence", "dissolution", "transcend", "unity", "complete"].any
        (fun w => containsSub (pyLower ins) w))).length
    let b3 := if ["conclud", "clos", "final", "dissolv", "integrat"].any
        (fun w => containsSub (pyLower (sn.analysis.currentDirection.getD "")) w) then 1 else 0
    let b4 := if ["competitive", "one-upmanship", "escalat", "profound closing"].any
        (fun w => containsSub (pyLower sn.analysisText) w) then 1 else 0
    let b5 := (sn.analysis.tensions.filter (fun t =>
      ["closure", "ending", "completion"].any
        (fun w => containsSub (pyLower t) w))).length
    b1 + b2 + b3 + b4 + b5)).sum

/-- closure_dynamics_count of analyze_snapshots: participantDynamics
entries whose combined style/perspective/contribution text contains a
closure-flavored word. -/
def closureDynamicsOf (history : List Snapshot) : Nat :=
  (history.map (fun sn =>
    (sn.analysis.participantDynamics.filter (fun d =>
      ["poetic", "minimal", "mystical", "farewell", "closing", "abstract"].any
        (fun w => containsSub (pyLower (d.style ++ " " ++ d.perspective ++ " " ++ d.contribution)) w))).length)).sum

/-- analyze_snapshots(analysis_history), restricted to the metrics the
final merge reads: returns none for an empty history (the source returns
an empty dict, leaving every snapshot key absent from the record). -/
def analyzeSnapshots (th : Thresholds) (history : List Snapshot) :
    Option SnapshotMetrics :=
  if history = [] then none
  else
    let phases := history.map (fun sn => sn.analysis.conversationPhase.getD "unknown")
    let conclusionSubtypes := phases.filter isConclusionPhase
    let timeline := phaseTimelineOf history
    let allThemes := (history.map (fun sn => sn.analysis.emergentThemes)).flatten
    some
      { conversation_outcome := recoveryOutcome th timeline history
        recovery_attempts := (periodWalk timeline).recovery_attempts
        sustained_recovery := if sustainedRecovery th timeline then 1 else 0
        phase_oscillations := phaseChangesOf timeline
        reached_conclusion :=
          if (phaseSequenceOf phases).any isConclusionPhase then 1 else 0
        has_transcendent_conclusion :=
          if conclusionSubtypes.any (fun p => containsSub p "transcendent") then 1 else 0
        has_integration_conclusion :=
          if conclusionSubtypes.any (fun p => containsSub p "integration") then 1 else 0
        breakdown_indicators_in_analysis := breakdownIndicatorsOf history
        closure_language_in_analysis :=
          (history.map (fun sn =>
            (closureIndicatorWords.filter
              (fun ind => containsSub (pyLower sn.analysisText) ind)).length)).sum
        transcendent_descriptors_count :=
          (history.filter (fun sn =>
            ["transcendent", "mystical", "dissolution", "unity", "oneness"].any
              (fun w => containsSub (pyLower sn.analysisText) w))).length
        closure_theme_count :=
          (allThemes.filter (fun t =>
            ["ending", "completion", "closure", "farewell", "goodbye"].any
              (fun w => containsSub (pyLower t) w))).length
        silence_theme_count :=
          (allThemes.filter (fun t =>
            ["silence", "stillness", "void", "emptiness"].any
              (fun w => containsSub (pyLower t) w))).length
        closure_dynamics_count := closureDynamicsOf history }

/-- The final merged fields the outcome/termination/confidence logic of
parse_and_analyze_json_with_thresholds writes. conversation_outcome and
termination_type are Options because the source only ever creates those
dict keys inside conditional branches. -/
structure MergedRecord where
  conversation_outcome : Option String
  termination_type : Option String
  breakdown_confidence : String
  breakdown_occurred : Nat
  deriving Repr, DecidableEq

/-- closure_indicators of the final merge: metadata.get(key, 0) reads with
default 0 when the snapshot metrics are absent. -/
def snapClosureIndicators (snap : Option SnapshotMetrics) : Bool :=
  decide ((snap.map (·.closure_language_in_analysis)).getD 0 > 2) ||
  decide ((snap.map (·.transcendent_descriptors_count)).getD 0 > 1) ||
  decide ((snap.map (·.closure_theme_count)).getD 0 > 0) ||
  decide ((snap.map (·.silence_theme_count)).getD 0 > 0) ||
  decide ((snap.map (·.closure_dynamics_count)).getD 0 > 2)

/-- strong_breakdown_from_analysis of the final merge. -/
def snapStrongBreakdown (snap : Option SnapshotMetrics) : Bool :=
  decide ((snap.map (·.has_transcendent_conclusion)).getD 0 = 1) ||
  decide ((snap.map (·.has_integration_conclusion)).getD 0 = 1) ||
  decide ((snap.map (·.breakdown_indicators_in_analysis)).getD 0 > 3)

/-- Lines 1940-1979 of the source: set termination_type from an already
present conversation_outcome, and otherwise run the fallback cascade on
message-analysis signals (which can overwrite breakdown_occurred and
breakdown_confidence in its strong-breakdown branch). -/
def mergeStage1 (msgRes : MessageResults) (snap : Option SnapshotMetrics)
    (errorCount : Nat) : MergedRecord :=
  let co := (snap.map (·.conversation_outcome)).getD "no_breakdown"
  let tt0 : Option String :=
    if co = "breakdown" then some "breakdown"
    else if co = "no_breakdown" then some "natural"
    else if co = "recovered" then some "recovered"
    else if co = "resisted" then some "resisted"
    else none
  match snap with
  | some m =>
    { conversation_outcome := some m.conversation_outcome
      termination_type := tt0
      breakdown_confidence := msgRes.breakdown_confidence
      breakdown_occurred := msgRes.breakdown_occurred }
  | none =>
    if msgRes.breakdown_occurred = 1 then
      { conversation_outcome := none
        termination_type := some "breakdown"
        breakdown_confidence := msgRes.breakdown_confidence
        breakdown_occurred := msgRes.breakdown_occurred }
    else if snapStrongBreakdown none then
      { conversation_outcome := none
        termination_type := some "breakdown"
        breakdown_confidence := "clear"
        breakdown_occurred := 1 }
    else if ((none : Option SnapshotMetrics).map (·.reached_conclusion)).getD 0 = 1 ∧
        snapClosureIndicators none then
      { conversation_outcome := none
        termination_type := some "breakdown"
        breakdown_confidence := msgRes.breakdown_confidence
        breakdown_occurred := msgRes.breakdown_occurred }
    else if ((none : Option SnapshotMetrics).map (·.reached_conclusion)).getD 0 = 1 then
      { conversation_outcome := none
        termination_type := some "natural"
        breakdown_confidence := msgRes.breakdown_confidence
        breakdown_occurred := msgRes.breakdown_occurred }
    else if errorCount > 0 then
      { conversation_outcome := none
        termination_type := some "technical"
        breakdown_confidence := msgRes.breakdown_confidence
        breakdown_occurred := msgRes.breakdown_occurred }
    else
      { conversation_outcome := none
        termination_type := some "manual"
        breakdown_confidence := msgRes.breakdown_confidence
        breakdown_occurred := msgRes.breakdown_occurred }

/-- Lines 1981-1991 of the source: the asymmetric confidence upgrade —
whenever a closure indicator fires and breakdown_confidence still reads
no_breakdown, upgrade it to likely and set breakdown_occurred. -/
def mergeStage2 (snap : Option SnapshotMetrics) (r : MergedRecord) : MergedRecord :=
  if snapClosureIndicators snap ∧ r.breakdown_confidence = "no_breakdown" then
    { r with breakdown_confidence := "likely", breakdown_occurred := 1 }
  else r

/-- The per-conversation pipeline of parse_and_analyze_json_with_thresholds
restricted to the merged outcome fields: run MessageAnalyzer and
SnapshotAnalyzer, merge, then apply the termination cascade and the
confidence upgrade. -/
def parseAndAnalyze (th : Thresholds) (msgs : List Msg) (history : List Snapshot)
    (errorCount : Nat) : MergedRecord :=
  mergeStage2 (analyzeSnapshots th history)
    (mergeStage1 (analyzeMessages th msgs) (analyzeSnapshots th history) errorCount)

/-!
Concrete inputs used by counterexamples and witnesses.
-/

/-- A message with the given participant and content (participantType and
timestamp are irrelevant to the detectors involved). -/
def mkMsg (p c : String) : Msg :=
  { participantId := p, participantType := "assistant", content := c, timestamp := 0 }

/-- Three messages with strictly escalating intensity vocabulary and no
meta-reflection, mystical or closure patterns: competitive escalation
fires at turn 2 without any earlier phase. -/
def escalationOnlyMsgs : List Msg :=
  [mkMsg "a" "meaningful", mkMsg "b" "profound", mkMsg "c" "transcendent"]

/-- The five-message conversation of the spec's concrete scenario: two
neutral openers, a meta-reflection trigger at turn 2, and two distinct
participants mirroring it at turns 3 and 4. -/
def scenarioMsgs : List Msg :=
  [mkMsg "p0" "Hello there", mkMsg "p1" "Good day",
   mkMsg "alice" "This has been a profound journey",
   mkMsg "bob" "Exactly, well said, building on what you said",
   mkMsg "carol" "Exactly, well said, building on what you said"]

/-- A one-message conversation whose single message is a meta-reflection
trigger. -/
def monoMsgs : List Msg :=
  [mkMsg "a" "This has been a profound journey"]

/-- A trailing suffix containing a further meta-reflection trigger. -/
def monoSuffixMsgs : List Msg :=
  [mkMsg "b" "This has been a meaningful conversation"]

/-- The distinct participants appearing in a message list. -/
def participantsOf (msgs : List Msg) : Finset String :=
  (msgs.map Msg.participantId).toFinset

/-- The invariant of the pass-1 influence map: keys and influenced
participants appear in the message list, and no edge is a self-loop. -/
def InfluenceMapOK (msgs : List Msg) (m : List (String × List InfluenceEvent)) : Prop :=
  ∀ e ∈ m, e.1 ∈ participantsOf msgs ∧
    ∀ ev ∈ e.2, ev.influenced ∈ participantsOf msgs ∧ ev.influenced ≠ e.1

/-- The invariant of the pass-2 state: processed pair keys are exactly the
keys of the recorded events, are pairwise distinct, and are sorted pairs
of participants of the conversation. -/
def Pass2OK (msgs : List Msg) (st : List BidirEvent × List (String × String)) : Prop :=
  st.1.map eventKey = st.2 ∧ st.2.Nodup ∧
    ∀ p ∈ st.2, p.1 < p.2 ∧ p.1 ∈ participantsOf msgs ∧ p.2 ∈ participantsOf msgs

/-- A single snapshot whose analysis lists an ending-flavored emergent
theme but whose free text and phase trigger no other heuristic. -/
def witnessSnap : Snapshot where
  messageCountAtAnalysis := 10
  analysis :=
    { conversationPhase := some "exploration"
      philosophicalDepth := none
      emergentThemes := ["ending reflections"]
      tensions := []
      convergences := []
      keyInsights := []
      currentDirection := none
      participantDynamics := [] }
  analysisText := "deep exploration of epistemology"

/-- Trace hypothesis for duration conservation: once a mystical breakdown
has started, no later step of the walk reassigns the meta-reflection,
peer-response or competitive start index. -/
def mysticalFreezesTrace (th : Thresholds) (msgs : List Msg) : Prop :=
  ∀ k < msgs.length, (phaseRun th msgs k).mystical_started > -1 →
    (phaseRun th msgs (k + 1)).meta_reflection_started =
      (phaseRun th msgs k).meta_reflection_started ∧
    (phaseRun th msgs (k + 1)).peer_response_started =
      (phaseRun th msgs k).peer_response_started ∧
    (phaseRun th msgs (k + 1)).competitive_started =
      (phaseRun th msgs k).competitive_started

/-- Trace hypothesis for duration conservation: the competitive start
index only changes on steps where a meta-reflection trigger had already
been recorded. -/
def compNeedsMeta (th : Thresholds) (msgs : List Msg) : Prop :=
  ∀ k < msgs.length, (phaseRun th msgs (k + 1)).competitive_started ≠
      (phaseRun th msgs k).competitive_started →
    (phaseRun th msgs k).meta_reflection_started > -1

/-- The duration bookkeeping invariant of the phase walk: in every shape
the duration cells already written sum to the start index of the most
advanced phase entered, and a meta-reflection whose peer check failed can
never acquire a peer response later (the check is deterministic in the
meta turn). -/
def PhaseSum (s : PhaseState) : Prop :=
  if s.mystical_started > -1 then
    s.phase1_duration + s.phase2_duration + s.phase3_duration + s.phase4_duration =
      s.mystical_started
  else if s.competitive_started > -1 then
    s.meta_reflection_started > -1 ∧
    s.phase1_duration + s.phase2_duration + s.phase3_duration = s.competitive_started ∧
    s.phase4_duration = 0
  else if s.peer_response_started > -1 then
    s.meta_reflection_started > -1 ∧
    s.phase1_duration + s.phase2_duration = s.peer_response_started ∧
    s.phase3_duration = 0 ∧ s.phase4_duration = 0
  else if s.meta_reflection_started > -1 then
    s.phase1_duration = s.meta_reflection_started ∧
    s.phase_start = s.meta_reflection_started ∧
    s.phase3_duration = 0 ∧ s.phase4_duration = 0
  else
    s.phase_start = 0 ∧ s.phase2_duration = 0 ∧ s.phase3_duration = 0 ∧
    s.phase4_duration = 0

def PhaseInv (th : Thresholds) (msgs : List Msg) (s : PhaseState) : Prop :=
  (s.meta_reflection_started > -1 ∧ s.peer_response_started = -1 ∧
      ¬(s.mystical_started > -1) →
    (detectPeerPressureResponse th msgs s.meta_reflection_started.toNat).1 = false) ∧
  PhaseSum s

/-!
Characterization lemmas for the phase state machine: how each loop block
transforms each start-index component.
-/

theorem phaseStepMeta_meta (msgs : List Msg) (i : Nat) (s : PhaseState) :
    (phaseStepMeta msgs i s).meta_reflection_started =
      if metaTrigAt msgs i ∧ s.meta_reflection_started = -1 then (i : Int)
      else s.meta_reflection_started := by
  simp only [phaseStepMeta]
  by_cases h1 : metaTrigAt msgs i <;> by_cases h2 : s.meta_reflection_started = -1 <;>
    simp [h1, h2]

theorem phaseStepMeta_peer (msgs : List Msg) (i : Nat) (s : PhaseState) :
    (phaseStepMeta msgs i s).peer_response_started = s.peer_response_started := by
  simp only [phaseStepMeta]
  by_cases h1 : metaTrigAt msgs i <;> by_cases h2 : s.meta_reflection_started = -1 <;>
    simp [h1, h2]

theorem phaseStepMeta_comp (msgs : List Msg) (i : Nat) (s : PhaseState) :
    (phaseStepMeta msgs i s).competitive_started = s.competitive_started := by
  simp only [phaseStepMeta]
  by_cases h1 : metaTrigAt msgs i <;> by_cases h2 : s.meta_reflection_started = -1 <;>
    simp [h1, h2]

theorem phaseStepMeta_myst (msgs : List Msg) (i : Nat) (s : PhaseState) :
    (phaseStepMeta msgs i s).mystical_started = s.mystical_started := by
  simp only [phaseStepMeta]
  by_cases h1 : metaTrigAt msgs i <;> by_cases h2 : s.meta_reflection_started = -1 <;>
    simp [h1, h2]

theorem phaseStepPeer_meta (th : Thresholds) (msgs : List Msg) (s : PhaseState) :
    (phaseStepPeer th msgs s).meta_reflection_started = s.meta_reflection_started := by
  simp only [phaseStepPeer]
  repeat' split
  all_goals rfl

theorem phaseStepPeer_peer (th : Thresholds) (msgs : List Msg) (s : PhaseState) :
    (phaseStepPeer th msgs s).peer_response_started =
      if s.meta_reflection_started > -1 ∧ s.peer_response_started = -1 ∧
          (detectPeerPressureResponse th msgs s.meta_reflection_started.toNat).1 then
        s.meta_reflection_started + 1
      else s.peer_response_started := by
  simp only [phaseStepPeer]
  by_cases h1 : s.meta_reflection_started > -1 ∧ s.peer_response_started = -1
  · by_cases h2 : (detectPeerPressureResponse th msgs s.meta_reflection_started.toNat).1 <;>
      simp [h1, h2, h1.1, h1.2]
  · simp only [if_neg h1]
    rw [if_neg]
    intro hc
    exact h1 ⟨hc.1, hc.2.1⟩

theorem phaseStepPeer_comp (th : Thresholds) (msgs : List Msg) (s : PhaseState) :
    (phaseStepPeer th msgs s).competitive_started = s.competitive_started := by
  simp only [phaseStepPeer]
  repeat' split
  all_goals rfl

theorem phaseStepPeer_myst (th : Thresholds) (msgs : List Msg) (s : PhaseState) :
    (phaseStepPeer th msgs s).mystical_started = s.mystical_started := by
  simp only [phaseStepPeer]
  repeat' split
  all_goals rfl

theorem phaseStepComp_meta (th : Thresholds) (msgs : List Msg) (i : Nat) (s : PhaseState) :
    (phaseStepComp th msgs i s).meta_reflection_started = s.meta_reflection_started := by
  simp only [phaseStepComp]
  repeat' split
  all_goals rfl

theorem phaseStepComp_peer (th : Thresholds) (msgs : List Msg) (i : Nat) (s : PhaseState) :
    (phaseStepComp th msgs i s).peer_response_started = s.peer_response_started := by
  simp only [phaseStepComp]
  repeat' split
  all_goals rfl

theorem phaseStepComp_myst (th : Thresholds) (msgs : List Msg) (i : Nat) (s : PhaseState) :
    (phaseStepComp th msgs i s).mystical_started = s.mystical_started := by
  simp only [phaseStepComp]
  repeat' split
  all_goals rfl

theorem phaseStepComp_comp (th : Thresholds) (msgs : List Msg) (i : Nat) (s : PhaseState) :
    (phaseStepComp th msgs i s).competitive_started =
      if ((i : Int) ≥
            max (if s.peer_response_started > -1 then s.peer_response_started else 0)
              (if s.meta_reflection_started > -1 then s.meta_reflection_started else 0) + 2) ∧
          ((detectCompetitiveEscalation th msgs
              (max (max s.peer_response_started s.meta_reflection_started) 0).toNat (i + 1)).1 ∨
            (detectCompetitiveEscalation th msgs
              (max (max s.peer_response_started s.meta_reflection_started) 0).toNat (i + 1)).2 > 3) ∧
          s.competitive_started = -1 then
        max (max s.peer_response_started s.meta_reflection_started) 0 + 1
      else s.competitive_started := by
  simp only [phaseStepComp]
  by_cases h1 : (i : Int) ≥
      max (if s.peer_response_started > -1 then s.peer_response_started else 0)
        (if s.meta_reflection_started > -1 then s.meta_reflection_started else 0) + 2
  · by_cases h2 : (detectCompetitiveEscalation th msgs
        (max (max s.peer_response_started s.meta_reflection_started) 0).toNat (i + 1)).1 ∨
        (detectCompetitiveEscalation th msgs
          (max (max s.peer_response_started s.meta_reflection_started) 0).toNat (i + 1)).2 > 3
    · by_cases h3 : s.competitive_started = -1 <;> simp [h1, h2, h3]
    · simp [h1, h2]
  · simp [h1]

theorem phaseStepMyst_meta (th : Thresholds) (msgs : List Msg) (i : Nat) (s : PhaseState) :
    (phaseStepMyst th msgs i s).meta_reflection_started = s.meta_reflection_started := by
  simp only [phaseStepMyst]
  repeat' split
  all_goals rfl

theorem phaseStepMyst_peer (th : Thresholds) (msgs : List Msg) (i : Nat) (s : PhaseState) :
    (phaseStepMyst th msgs i s).peer_response_started = s.peer_response_started := by
  simp only [phaseStepMyst]
  repeat' split
  all_goals rfl

theorem phaseStepMyst_comp (th : Thresholds) (msgs : List Msg) (i : Nat) (s : PhaseState) :
    (phaseStepMyst th msgs i s).competitive_started = s.competitive_started := by
  simp only [phaseStepMyst]
  repeat' split
  all_goals rfl

theorem phaseStepMyst_myst (th : Thresholds) (msgs : List Msg) (i : Nat) (s : PhaseState) :
    (phaseStepMyst th msgs i s).mystical_started =
      if isMysticalContent th (msgAt msgs i).content ∧ s.mystical_started = -1 then (i : Int)
      else s.mystical_started := by
  simp only [phaseStepMyst]
  by_cases h1 : isMysticalContent th (msgAt msgs i).content <;>
    by_cases h2 : s.mystical_started = -1 <;> simp [h1, h2]

theorem phaseStep_meta (th : Thresholds) (msgs : List Msg) (s : PhaseState) (i : Nat) :
    (phaseStep th msgs s i).meta_reflection_started =
      if metaTrigAt msgs i ∧ s.meta_reflection_started = -1 then (i : Int)
      else s.meta_reflection_started := by
  simp [phaseStep, phaseStepMyst_meta, phaseStepComp_meta, phaseStepPeer_meta,
    phaseStepMeta_meta]

theorem phaseRun_zero (th : Thresholds) (msgs : List Msg) :
    phaseRun th msgs 0 = initPhaseState := rfl

theorem phaseRun_succ (th : Thresholds) (msgs : List Msg) (k : Nat) :
    phaseRun th msgs (k + 1) = phaseStep th msgs (phaseRun th msgs k) k := by
  simp [phaseRun, List.range_succ]

theorem msgAt_append (m s : List Msg) (i : Nat) (h : i < m.length) :
    msgAt (m ++ s) i = msgAt m i := by
  simp [msgAt, List.getD_eq_getElem?_getD, List.getElem?_append_left h]

theorem metaTrigAt_append (m s : List Msg) (i : Nat) (h : i < m.length) :
    metaTrigAt (m ++ s) i = metaTrigAt m i := by
  simp [metaTrigAt, msgAt_append m s i h]

theorem phaseRun_meta_append (th : Thresholds) (m s : List Msg) :
    ∀ k, k ≤ m.length →
      (phaseRun th (m ++ s) k).meta_reflection_started =
        (phaseRun th m k).meta_reflection_started := by
  intro k
  induction k with
  | zero => intro _; rfl
  | succ n ih =>
    intro hk
    rw [phaseRun_succ, phaseRun_succ, phaseStep_meta, phaseStep_meta,
      ih (by omega), metaTrigAt_append m s n (by omega)]

theorem phaseRun_meta_stable (th : Thresholds) (msgs : List Msg) (k : Nat) :
    ∀ j, (phaseRun th msgs k).meta_reflection_started ≠ -1 →
      (phaseRun th msgs (k + j)).meta_reflection_started =
        (phaseRun th msgs k).meta_reflection_started := by
  intro j
  induction j with
  | zero => intro _; rfl
  | succ n ih =>
    intro h
    have : k + (n + 1) = (k + n) + 1 := by omega
    rw [this, phaseRun_succ, phaseStep_meta, ih h]
    rw [if_neg]
    intro hc
    exact h (ih h ▸ hc.2)

theorem detectBreakdownPhase_metaTrigger (th : Thresholds) (msgs : List Msg) :
    (detectBreakdownPhase th msgs).meta_reflection_trigger =
      if (phaseRun th msgs msgs.length).meta_reflection_started > -1 then
        (phaseRun th msgs msgs.length).meta_reflection_started
      else 0 := rfl

theorem detectBreakdownPhase_compTrigger (th : Thresholds) (msgs : List Msg) :
    (detectBreakdownPhase th msgs).competitive_escalation =
      if (phaseRun th msgs msgs.length).competitive_started > -1 then
        (phaseRun th msgs msgs.length).competitive_started
      else 0 := rfl

theorem phaseStep_peer_eq (th : Thresholds) (msgs : List Msg) (s : PhaseState) (i : Nat) :
    (phaseStep th msgs s i).peer_response_started =
      (phaseStepPeer th msgs (phaseStepMeta msgs i s)).peer_response_started := by
  simp [phaseStep, phaseStepMyst_peer, phaseStepComp_peer]

theorem phaseStep_comp_eq (th : Thresholds) (msgs : List Msg) (s : PhaseState) (i : Nat) :
    (phaseStep th msgs s i).competitive_started =
      (phaseStepComp th msgs i
        (phaseStepPeer th msgs (phaseStepMeta msgs i s))).competitive_started := by
  simp [phaseStep, phaseStepMyst_comp]

theorem phaseStep_myst (th : Thresholds) (msgs : List Msg) (s : PhaseState) (i : Nat) :
    (phaseStep th msgs s i).mystical_started =
      if isMysticalContent th (msgAt msgs i).content ∧ s.mystical_started = -1 then (i : Int)
      else s.mystical_started := by
  simp [phaseStep, phaseStepMyst_myst, phaseStepComp_myst, phaseStepPeer_myst,
    phaseStepMeta_myst]

/-- Changing escalation_threshold leaves the peer-pressure check alone. -/
theorem peerPressure_escFree (th : Thresholds) (t : ℚ) (msgs : List Msg) (j : Nat) :
    detectPeerPressureResponse { th with escalation_threshold := t } msgs j =
      detectPeerPressureResponse th msgs j := rfl

/-- Changing escalation_threshold leaves mystical classification alone. -/
theorem mystical_escFree (th : Thresholds) (t : ℚ) (c : String) :
    isMysticalContent { th with escalation_threshold := t } c = isMysticalContent th c := rfl

/-- The escalation score does not depend on escalation_threshold. -/
theorem detectCompEsc_score_escFree (th : Thresholds) (t1 t2 : ℚ) (msgs : List Msg)
    (a b : Nat) :
    (detectCompetitiveEscalation { th with escalation_threshold := t1 } msgs a b).2 =
      (detectCompetitiveEscalation { th with escalation_threshold := t2 } msgs a b).2 := by
  simp only [detectCompetitiveEscalation]
  split <;> rfl

/-- The one-upsmanship flag is antitone in escalation_threshold. -/
theorem detectCompEsc_flag_mono (th : Thresholds) (t1 t2 : ℚ) (h : t1 ≤ t2)
    (msgs : List Msg) (a b : Nat)
    (hf : (detectCompetitiveEscalation { th with escalation_threshold := t2 } msgs a b).1 = true) :
    (detectCompetitiveEscalation { th with escalation_threshold := t1 } msgs a b).1 = true := by
  simp only [detectCompetitiveEscalation] at hf ⊢
  split at hf
  · simp at hf
  · rename_i hba
    rw [if_neg hba]
    simp only [decide_eq_true_eq] at hf ⊢
    calc ((b - a : Nat) : ℚ) * t1 ≤ ((b - a : Nat) : ℚ) * t2 := by
          apply mul_le_mul_of_nonneg_left h
          positivity
      _ ≤ _ := hf

/-- Competitive-entry comparison for one loop block: with matching meta
and peer components and the competitive implication on the inputs, the
lower threshold preserves every competitive entry of the higher one. -/
theorem phaseStepComp_compare (th : Thresholds) (t1 t2 : ℚ) (h : t1 ≤ t2)
    (msgs : List Msg) (i : Nat) (u1 u2 : PhaseState)
    (hm : u1.meta_reflection_started = u2.meta_reflection_started)
    (hp : u1.peer_response_started = u2.peer_response_started)
    (hc : u2.competitive_started ≠ -1 → u1.competitive_started ≠ -1)
    (h2 : (phaseStepComp { th with escalation_threshold := t2 } msgs i u2).competitive_started ≠ -1) :
    (phaseStepComp { th with escalation_threshold := t1 } msgs i u1).competitive_started ≠ -1 := by
  rw [phaseStepComp_comp] at h2 ⊢
  rw [hm, hp]
  have hanchor : (0 : Int) ≤ max (max u2.peer_response_started u2.meta_reflection_started) 0 :=
    le_max_right _ _
  by_cases hC2 : ((i : Int) ≥
        max (if u2.peer_response_started > -1 then u2.peer_response_started else 0)
          (if u2.meta_reflection_started > -1 then u2.meta_reflection_started else 0) + 2) ∧
      ((detectCompetitiveEscalation { th with escalation_threshold := t2 } msgs
          (max (max u2.peer_response_started u2.meta_reflection_started) 0).toNat (i + 1)).1 = true ∨
        (detectCompetitiveEscalation { th with escalation_threshold := t2 } msgs
          (max (max u2.peer_response_started u2.meta_reflection_started) 0).toNat (i + 1)).2 > 3) ∧
      u2.competitive_started = -1
  case pos =>
    have hB1 : (detectCompetitiveEscalation { th with escalation_threshold := t1 } msgs
          (max (max u2.peer_response_started u2.meta_reflection_started) 0).toNat (i + 1)).1 = true ∨
        (detectCompetitiveEscalation { th with escalation_threshold := t1 } msgs
          (max (max u2.peer_response_started u2.meta_reflection_started) 0).toNat (i + 1)).2 > 3 := by
      rcases hC2.2.1 with hf | hs
      · exact Or.inl (detectCompEsc_flag_mono th t1 t2 h msgs _ _ hf)
      · refine Or.inr ?_
        rw [detectCompEsc_score_escFree th t1 t2]
        exact hs
    by_cases hD1 : u1.competitive_started = -1
    · rw [if_pos ⟨hC2.1, hB1, hD1⟩]
      omega
    · rw [if_neg (fun hx => hD1 hx.2.2)]
      exact hD1
  case neg =>
    rw [if_neg hC2] at h2
    have hu1 : u1.competitive_started ≠ -1 := hc h2
    by_cases hC1 : ((i : Int) ≥
        max (if u2.peer_response_started > -1 then u2.peer_response_started else 0)
          (if u2.meta_reflection_started > -1 then u2.meta_reflection_started else 0) + 2) ∧
        ((detectCompetitiveEscalation { th with escalation_threshold := t1 } msgs
          (max (max u2.peer_response_started u2.meta_reflection_started) 0).toNat (i + 1)).1 = true ∨
          (detectCompetitiveEscalation { th with escalation_threshold := t1 } msgs
          (max (max u2.peer_response_started u2.meta_reflection_started) 0).toNat (i + 1)).2 > 3) ∧
        u1.competitive_started = -1
    · rw [if_pos hC1]
      omega
    · rw [if_neg hC1]
      exact hu1

/-- Simulation relation between runs that differ only in
escalation_threshold: meta, peer and mystical entries coincide, and every
competitive entry under the higher threshold is matched under the lower
one. -/
theorem phaseRun_escCompare (th : Thresholds) (t1 t2 : ℚ) (h : t1 ≤ t2)
    (msgs : List Msg) (k : Nat) :
    (phaseRun { th with escalation_threshold := t1 } msgs k).meta_reflection_started =
      (phaseRun { th with escalation_threshold := t2 } msgs k).meta_reflection_started ∧
    (phaseRun { th with escalation_threshold := t1 } msgs k).peer_response_started =
      (phaseRun { th with escalation_threshold := t2 } msgs k).peer_response_started ∧
    (phaseRun { th with escalation_threshold := t1 } msgs k).mystical_started =
      (phaseRun { th with escalation_threshold := t2 } msgs k).mystical_started ∧
    ((phaseRun { th with escalation_threshold := t2 } msgs k).competitive_started ≠ -1 →
      (phaseRun { th with escalation_threshold := t1 } msgs k).competitive_started ≠ -1) := by
  induction k with
  | zero => exact ⟨rfl, rfl, rfl, fun hc => hc⟩
  | succ n ih =>
    obtain ⟨ihm, ihp, ihy, ihc⟩ := ih
    have hmeta1 : (phaseStepMeta msgs n
        (phaseRun { th with escalation_threshold := t1 } msgs n)).meta_reflection_started =
        (phaseStepMeta msgs n
          (phaseRun { th with escalation_threshold := t2 } msgs n)).meta_reflection_started := by
      rw [phaseStepMeta_meta, phaseStepMeta_meta, ihm]
    have hpeer2 : (phaseStepPeer { th with escalation_threshold := t1 } msgs
        (phaseStepMeta msgs n
          (phaseRun { th with escalation_threshold := t1 } msgs n))).peer_response_started =
        (phaseStepPeer { th with escalation_threshold := t2 } msgs
          (phaseStepMeta msgs n
            (phaseRun { th with escalation_threshold := t2 } msgs n))).peer_response_started := by
      rw [phaseStepPeer_peer, phaseStepPeer_peer, hmeta1, phaseStepMeta_peer,
        phaseStepMeta_peer, ihp, peerPressure_escFree th t1, peerPressure_escFree th t2]
    refine ⟨?_, ?_, ?_, ?_⟩
    · rw [phaseRun_succ, phaseRun_succ, phaseStep_meta, phaseStep_meta, ihm]
    · rw [phaseRun_succ, phaseRun_succ, phaseStep_peer_eq, phaseStep_peer_eq]
      exact hpeer2
    · rw [phaseRun_succ, phaseRun_succ, phaseStep_myst, phaseStep_myst,
        mystical_escFree th t1, mystical_escFree th t2, ihy]
    · rw [phaseRun_succ, phaseRun_succ, phaseStep_comp_eq, phaseStep_comp_eq]
      apply phaseStepComp_compare th t1 t2 h msgs n
      · rw [phaseStepPeer_meta, phaseStepPeer_meta]
        exact hmeta1
      · exact hpeer2
      · rw [phaseStepPeer_comp, phaseStepPeer_comp, phaseStepMeta_comp, phaseStepMeta_comp]
        exact ihc

/-!
The claims.
-/

/-- Claim C3, counterexample: compute_ensemble_score(s, null) is the raw
symbolic signal, not min(1.0, s) — at s = 2 the function returns 2 while
the claim demands min(1.0, 2) = 1. -/
theorem claim_C3_counterexample :
    (0 : ℚ) ≤ 2 ∧ ¬ (computeEnsembleScore true 2 none = min 1 2) := by
  constructor
  · norm_num
  · simp [computeEnsembleScore]

/-- Claim C3, amended: with an absent semantic score the ensemble returns
the symbolic signal unchanged (no normalization or cap is applied), so it
equals min(1.0, s) exactly on signals at most 1 — in particular for every
binary 0/1 signal — and any 0.5-cut decision reduces to the symbolic-only
decision; the cap claimed for counts greater than 1 does not exist. -/
theorem claim_C3_theorem (useNlp : Bool) (s : ℚ) (_h : 0 ≤ s) :
    computeEnsembleScore useNlp s none = s ∧
      (s ≤ 1 → computeEnsembleScore useNlp s none = min 1 s) ∧
      ensembleDecision useNlp s none = decide (s > 1/2) := by
  refine ⟨?_, ?_, ?_⟩
  · simp [computeEnsembleScore]
  · intro hs
    simp [computeEnsembleScore, min_eq_right hs]
  · simp [ensembleDecision, computeEnsembleScore]

/-- Witness for the amended C3 at the binary signal s = 1. -/
theorem claim_C3_witness :
    (0 : ℚ) ≤ 1 ∧
      (computeEnsembleScore true 1 none = 1 ∧
        ((1 : ℚ) ≤ 1 → computeEnsembleScore true 1 none = min 1 1) ∧
        ensembleDecision true 1 none = decide ((1 : ℚ) > 1/2)) :=
  ⟨by norm_num, claim_C3_theorem true 1 (by norm_num)⟩

/-- Claim C10: with the semantic scorer present the ensemble is
0.6·min(1,b) + 0.4·min(1,r); whenever the semantic score is at most 1/6,
the fused score is at most 0.5 for every symbolic signal r — so the fixed
0.5 cut rejects the message no matter how strongly the regexes fired —
while the same binary signal clears the cut in regex-only mode. -/
theorem claim_C10_theorem (r b : ℚ) (_hb0 : 0 ≤ b) (hb : b ≤ 1/6) :
    computeEnsembleScore true r (some b) = 3/5 * min 1 b + 2/5 * min 1 r ∧
      computeEnsembleScore true r (some b) ≤ 1/2 ∧
      ensembleDecision true r (some b) = false ∧
      ensembleDecision false 1 none = true := by
  have hval : computeEnsembleScore true r (some b) = 3/5 * min 1 b + 2/5 * min 1 r := by
    simp [computeEnsembleScore]
    norm_num
  have hbound : computeEnsembleScore true r (some b) ≤ 1/2 := by
    rw [hval]
    have h1 : min 1 b ≤ b := min_le_right 1 b
    have h2 : min 1 r ≤ 1 := min_le_left 1 r
    nlinarith
  refine ⟨hval, hbound, ?_, ?_⟩
  · simp only [ensembleDecision]
    simp only [decide_eq_false_iff_not, not_lt]
    exact hbound
  · simp [ensembleDecision, computeEnsembleScore]
    norm_num

/-- Witness for C10 at r = 1, b = 0. -/
theorem claim_C10_witness :
    (0 : ℚ) ≤ 0 ∧ (0 : ℚ) ≤ 1/6 ∧
      (computeEnsembleScore true 1 (some 0) = 3/5 * min 1 0 + 2/5 * min 1 1 ∧
        computeEnsembleScore true 1 (some 0) ≤ 1/2 ∧
        ensembleDecision true 1 (some 0) = false ∧
        ensembleDecision false 1 none = true) :=
  ⟨le_refl 0, by norm_num, claim_C10_theorem 1 0 (le_refl 0) (by norm_num)⟩

set_option maxRecDepth 1000000 in
unseal Rat.mul Rat.add Rat.sub Rat.inv in
/-- Claim C9: on a conversation with zero messages analyze_messages
produces the documented neutral values: every ratio metric is 0 and the
forward/past directional ratio defaults to 0.5, reported as
mean_forward_ratio 50.0 (no zero-denominator division is ever taken). -/
theorem claim_C9_theorem :
    (analyzeMessages defaultThresholds ([] : List Msg)).avg_response_latency = 0 ∧
    (analyzeMessages defaultThresholds ([] : List Msg)).mystical_density = 0 ∧
    (analyzeMessages defaultThresholds ([] : List Msg)).meta_reflection_density = 0 ∧
    (analyzeMessages defaultThresholds ([] : List Msg)).question_density = 0 ∧
    (analyzeMessages defaultThresholds ([] : List Msg)).mirroring_coefficient = 0 ∧
    (analyzeMessages defaultThresholds ([] : List Msg)).peer_pressure_intensity = 0 ∧
    (analyzeMessages defaultThresholds ([] : List Msg)).mean_forward_pct = 50 := by
  decide

set_option maxRecDepth 1000000 in
unseal Rat.mul Rat.add Rat.sub Rat.inv in
/-- Claim C4, counterexample: in the spec's concrete scenario (meta
trigger "This has been a profound journey" at turn 2, two distinct other
participants mirroring at turns 3 and 4), peer_pressure_detected is 0, not
1: the peer-pressure event loop keys on closure-vibe ensembles, and the
turn-2 meta-reflection is not a closure vibe (those require
beautiful/wonderful/extraordinary). -/
theorem claim_C4_counterexample :
    ¬ ((analyzeMessages defaultThresholds scenarioMsgs).meta_reflection_turn = 2 ∧
       (detectBreakdownPhase defaultThresholds scenarioMsgs).peer_response = 3 ∧
       (analyzeMessages defaultThresholds scenarioMsgs).peer_pressure_detected = 1 ∧
       1 ≤ (analyzeMessages defaultThresholds scenarioMsgs).peer_pressure_event_count) := by
  decide

set_option maxRecDepth 1000000 in
unseal Rat.mul Rat.add Rat.sub Rat.inv in
/-- Claim C4, amended: in that scenario the phase detector does set
meta_reflection_turn = 2 and enter peer_response at turn 3 (so the
conversation ends in the peer_response phase), but peer_pressure_detected
and peer_pressure_event_count are 0 because no message carries a
closure-vibe trigger. -/
theorem claim_C4_theorem :
    (analyzeMessages defaultThresholds scenarioMsgs).meta_reflection_turn = 2 ∧
    (detectBreakdownPhase defaultThresholds scenarioMsgs).peer_response = 3 ∧
    (analyzeMessages defaultThresholds scenarioMsgs).current_breakdown_phase = "peer_response" ∧
    (analyzeMessages defaultThresholds scenarioMsgs).peer_pressure_detected = 0 ∧
    (analyzeMessages defaultThresholds scenarioMsgs).peer_pressure_event_count = 0 := by
  decide

set_option maxRecDepth 1000000 in
unseal Rat.mul Rat.add Rat.sub Rat.inv in
/-- Claim C1, counterexample: on three messages of strictly escalating
intensity and no meta-reflection, competitive escalation is entered
without any earlier phase and the five phase durations sum to 2, not
len(messages) = 3 — the elif duration cascade never accounts for the
turns before an out-of-order competitive entry. -/
theorem claim_C1_counterexample :
    ¬ ((detectBreakdownPhase defaultThresholds escalationOnlyMsgs).phase1_duration +
        (detectBreakdownPhase defaultThresholds escalationOnlyMsgs).phase2_duration +
        (detectBreakdownPhase defaultThresholds escalationOnlyMsgs).phase3_duration +
        (detectBreakdownPhase defaultThresholds escalationOnlyMsgs).phase4_duration +
        (detectBreakdownPhase defaultThresholds escalationOnlyMsgs).phase5_duration =
        (escalationOnlyMsgs.length : Int)) := by
  decide


/-- Claim C5: meta-reflection entry is monotone under appending messages —
if detection on m sets the meta-reflection start index to k ≥ 0, detection
on m ++ s leaves the start at the same k (the loop only ever assigns
meta_reflection_started when it is still -1, so later triggers never move
it), and the reported meta_reflection_trigger is unchanged as well. -/
theorem claim_C5_theorem (th : Thresholds) (m s : List Msg) (k : Int)
    (hk : (phaseRun th m m.length).meta_reflection_started = k) (h0 : 0 ≤ k) :
    (phaseRun th (m ++ s) (m ++ s).length).meta_reflection_started = k ∧
      (detectBreakdownPhase th (m ++ s)).meta_reflection_trigger =
        (detectBreakdownPhase th m).meta_reflection_trigger := by
  have hne : (phaseRun th m m.length).meta_reflection_started ≠ -1 := by
    rw [hk]; omega
  have hpre := phaseRun_meta_append th m s m.length le_rfl
  have hne2 : (phaseRun th (m ++ s) m.length).meta_reflection_started ≠ -1 := by
    rw [hpre]; exact hne
  have hst := phaseRun_meta_stable th (m ++ s) m.length s.length hne2
  have hlen : (m ++ s).length = m.length + s.length := List.length_append m s
  have hmain : (phaseRun th (m ++ s) (m ++ s).length).meta_reflection_started = k := by
    rw [hlen, hst, hpre, hk]
  refine ⟨hmain, ?_⟩
  rw [detectBreakdownPhase_metaTrigger, detectBreakdownPhase_metaTrigger, hmain, hk]

set_option maxRecDepth 1000000 in
unseal Rat.mul Rat.add Rat.sub Rat.inv in
/-- Witness for C5: a single-trigger conversation keeps start index 0
after a second trigger message is appended. -/
theorem claim_C5_witness :
    (phaseRun defaultThresholds monoMsgs monoMsgs.length).meta_reflection_started = 0 ∧
      (0 : Int) ≤ 0 ∧
      ((phaseRun defaultThresholds (monoMsgs ++ monoSuffixMsgs)
          (monoMsgs ++ monoSuffixMsgs).length).meta_reflection_started = 0 ∧
        (detectBreakdownPhase defaultThresholds (monoMsgs ++ monoSuffixMsgs)).meta_reflection_trigger =
          (detectBreakdownPhase defaultThresholds monoMsgs).meta_reflection_trigger) :=
  ⟨by decide, le_refl 0,
    claim_C5_theorem defaultThresholds monoMsgs monoSuffixMsgs 0 (by decide) (le_refl 0)⟩


/-- competitive_started is either the -1 sentinel or at least 1. -/
theorem phaseRun_comp_lb (th : Thresholds) (msgs : List Msg) (k : Nat) :
    (phaseRun th msgs k).competitive_started = -1 ∨
      1 ≤ (phaseRun th msgs k).competitive_started := by
  induction k with
  | zero => exact Or.inl rfl
  | succ n ih =>
    rw [phaseRun_succ, phaseStep_comp_eq, phaseStepComp_comp]
    rw [phaseStepPeer_comp, phaseStepMeta_comp]
    by_cases hC : ((n : Int) ≥
        max (if (phaseStepPeer th msgs (phaseStepMeta msgs n (phaseRun th msgs n))).peer_response_started > -1 then (phaseStepPeer th msgs (phaseStepMeta msgs n (phaseRun th msgs n))).peer_response_started else 0)
          (if (phaseStepPeer th msgs (phaseStepMeta msgs n (phaseRun th msgs n))).meta_reflection_started > -1 then (phaseStepPeer th msgs (phaseStepMeta msgs n (phaseRun th msgs n))).meta_reflection_started else 0) + 2) ∧
        ((detectCompetitiveEscalation th msgs
            (max (max (phaseStepPeer th msgs (phaseStepMeta msgs n (phaseRun th msgs n))).peer_response_started (phaseStepPeer th msgs (phaseStepMeta msgs n (phaseRun th msgs n))).meta_reflection_started) 0).toNat (n + 1)).1 = true ∨
          (detectCompetitiveEscalation th msgs
            (max (max (phaseStepPeer th msgs (phaseStepMeta msgs n (phaseRun th msgs n))).peer_response_started (phaseStepPeer th msgs (phaseStepMeta msgs n (phaseRun th msgs n))).meta_reflection_started) 0).toNat (n + 1)).2 > 3) ∧
        (phaseRun th msgs n).competitive_started = -1
    · rw [if_pos hC]
      right
      have hnn : (0 : Int) ≤
          max (max (phaseStepPeer th msgs (phaseStepMeta msgs n (phaseRun th msgs n))).peer_response_started (phaseStepPeer th msgs (phaseStepMeta msgs n (phaseRun th msgs n))).meta_reflection_started) 0 :=
        le_max_right _ _
      omega
    · rw [if_neg hC]
      exact ih

/-- Claim C6: escalation detection is antitone in escalation_threshold —
with the corpus, the other thresholds and regex-only mode fixed, every
conversation flagged with competitive escalation under t2 is flagged under
t1 ≤ t2, so raising the threshold never increases the number of flagged
conversations. -/
theorem claim_C6_theorem (th : Thresholds) (t1 t2 : ℚ) (hle : t1 ≤ t2)
    (msgs : List Msg) (corpus : List (List Msg))
    (hflag : (detectBreakdownPhase { th with escalation_threshold := t2 }
      msgs).competitive_escalation > 0) :
    (detectBreakdownPhase { th with escalation_threshold := t1 }
      msgs).competitive_escalation > 0 ∧
    corpus.countP (fun ms => decide ((detectBreakdownPhase
        { th with escalation_threshold := t2 } ms).competitive_escalation > 0)) ≤
      corpus.countP (fun ms => decide ((detectBreakdownPhase
        { th with escalation_threshold := t1 } ms).competitive_escalation > 0)) := by
  have key : ∀ ms : List Msg,
      (detectBreakdownPhase { th with escalation_threshold := t2 }
        ms).competitive_escalation > 0 →
      (detectBreakdownPhase { th with escalation_threshold := t1 }
        ms).competitive_escalation > 0 := by
    intro ms hms
    rw [detectBreakdownPhase_compTrigger] at hms ⊢
    have hcmp := (phaseRun_escCompare th t1 t2 hle ms ms.length).2.2.2
    have hlb1 := phaseRun_comp_lb { th with escalation_threshold := t1 } ms ms.length
    by_cases h2c : (phaseRun { th with escalation_threshold := t2 }
        ms ms.length).competitive_started > -1
    · have hne1 := hcmp (by omega)
      rcases hlb1 with he | hge
      · exact absurd he hne1
      · rw [if_pos (by omega)]
        omega
    · rw [if_neg h2c] at hms
      exact absurd hms (lt_irrefl 0)
  refine ⟨key msgs hflag, ?_⟩
  apply List.countP_mono_left
  intro ms _
  simp only [decide_eq_true_eq]
  exact key ms

set_option maxRecDepth 1000000 in
unseal Rat.mul Rat.add Rat.sub Rat.inv in
/-- Witness for C6 at t1 = 1/4 ≤ t2 = 3/10 on the escalation-only
conversation. -/
theorem claim_C6_witness :
    (1/4 : ℚ) ≤ 3/10 ∧
    (detectBreakdownPhase { defaultThresholds with escalation_threshold := 3/10 }
      escalationOnlyMsgs).competitive_escalation > 0 ∧
    ((detectBreakdownPhase { defaultThresholds with escalation_threshold := 1/4 }
      escalationOnlyMsgs).competitive_escalation > 0 ∧
    [escalationOnlyMsgs].countP (fun ms => decide ((detectBreakdownPhase
        { defaultThresholds with escalation_threshold := 3/10 } ms).competitive_escalation > 0)) ≤
      [escalationOnlyMsgs].countP (fun ms => decide ((detectBreakdownPhase
        { defaultThresholds with escalation_threshold := 1/4 } ms).competitive_escalation > 0))) :=
  ⟨by norm_num, by decide,
    claim_C6_theorem defaultThresholds (1/4) (3/10) (by norm_num) escalationOnlyMsgs
      [escalationOnlyMsgs] (by decide)⟩


theorem pid_mem_participants (msgs : List Msg) (j : Nat) (h : j < msgs.length) :
    (msgAt msgs j).participantId ∈ participantsOf msgs := by
  have hm : msgAt msgs j = msgs.get ⟨j, h⟩ := by
    simp [msgAt, List.getD_eq_getElem?_getD, List.getElem?_eq_getElem h]
  rw [hm]
  unfold participantsOf
  rw [List.mem_toFinset]
  exact List.mem_map_of_mem Msg.participantId (List.get_mem msgs j h)

theorem foldl_forall_mem {α β : Type} (op : List β → α → List β) (P : β → Prop)
    (Q : α → Prop)
    (hop : ∀ acc a, Q a → (∀ r ∈ acc, P r) → ∀ r ∈ op acc a, P r) :
    ∀ (l : List α) (acc : List β), (∀ a ∈ l, Q a) → (∀ r ∈ acc, P r) →
      ∀ r ∈ l.foldl op acc, P r := by
  intro l
  induction l with
  | nil =>
    intro acc _ hacc
    exact hacc
  | cons a l ih =>
    intro acc hl hacc
    rw [List.foldl_cons]
    exact ih (op acc a) (fun x hx => hl x (List.mem_cons_of_mem a hx))
      (hop acc a (hl a (List.mem_cons_self a l)) hacc)

theorem responders_spec (th : Thresholds) (msgs : List Msg) (i : Nat) :
    ∀ r ∈ (detectPeerPressureResponse th msgs i).2,
      r ∈ participantsOf msgs ∧ r ≠ (msgAt msgs i).participantId := by
  unfold detectPeerPressureResponse
  split
  · intro r hr
    simp at hr
  · show ∀ r ∈ (List.range' (i + 1) (min (i + 6) msgs.length - (i + 1))).foldl
        (fun acc j =>
          if (msgAt msgs j).participantId == (msgAt msgs i).participantId then acc
          else
            if mirroringPhrases.any (fun p => reSearch p (pyLower (msgAt msgs j).content)) ||
                closureVibePatterns.any (fun p => reSearch p (pyLower (msgAt msgs j).content)) then
              acc ++ [(msgAt msgs j).participantId]
            else acc) [],
        r ∈ participantsOf msgs ∧ r ≠ (msgAt msgs i).participantId
    refine foldl_forall_mem _ _ (fun j => j < msgs.length) ?_ _ [] ?_ ?_
    · intro acc j hjlt hacc r hr
      by_cases hsame : ((msgAt msgs j).participantId == (msgAt msgs i).participantId) = true
      · rw [if_pos hsame] at hr
        exact hacc r hr
      · rw [if_neg hsame] at hr
        split at hr
        · rcases List.mem_append.mp hr with hin | hin
          · exact hacc r hin
          · simp at hin
            subst hin
            refine ⟨pid_mem_participants msgs j hjlt, ?_⟩
            intro hEq
            exact hsame (by simp [hEq])
        · exact hacc r hr
    · intro j hj
      have := List.mem_range'_1.mp hj
      omega
    · intro r hr
      simp at hr

theorem addInfluence_ok (msgs : List Msg) (m : List (String × List InfluenceEvent))
    (tp : String) (ev : InfluenceEvent) (hm : InfluenceMapOK msgs m)
    (htp : tp ∈ participantsOf msgs) (hev : ev.influenced ∈ participantsOf msgs)
    (hne : ev.influenced ≠ tp) :
    InfluenceMapOK msgs (addInfluence m tp ev) := by
  induction m with
  | nil =>
    intro e he
    simp [addInfluence] at he
    subst he
    refine ⟨htp, ?_⟩
    intro x hx
    simp at hx
    subst hx
    exact ⟨hev, hne⟩
  | cons hd tl ih =>
    intro e he
    rw [addInfluence] at he
    split at he
    · rename_i hbeq
      have hhd := hm hd (List.mem_cons_self hd tl)
      rcases List.mem_cons.mp he with he1 | he2
      · subst he1
        refine ⟨hhd.1, ?_⟩
        intro x hx
        rcases List.mem_append.mp hx with hx1 | hx2
        · exact hhd.2 x hx1
        · simp at hx2
          subst hx2
          refine ⟨hev, ?_⟩
          have : hd.1 = tp := by simpa using hbeq
          rw [this]
          exact hne
      · exact hm e (List.mem_cons_of_mem hd he2)
    · rcases List.mem_cons.mp he with he1 | he2
      · subst he1
        exact hm hd (List.mem_cons_self hd tl)
      · exact ih (fun x hx => hm x (List.mem_cons_of_mem hd hx)) e he2

theorem influencePass1_ok (th : Thresholds) (msgs : List Msg) :
    InfluenceMapOK msgs (influencePass1 th msgs) := by
  unfold influencePass1
  apply List.foldlRecOn
  · intro e he
    simp at he
  · intro m hm i hi
    have hilt : i < msgs.length := by
      have := List.mem_range.mp hi
      omega
    show InfluenceMapOK msgs
      (if (closureVibePatterns ++ competitiveClosurePatterns).any
          (fun p => reSearch p (pyLower (msgAt msgs i).content)) then
        if (detectPeerPressureResponse th msgs i).1 then
          (detectPeerPressureResponse th msgs i).2.foldl (fun acc2 responder =>
            addInfluence acc2 (msgAt msgs i).participantId
              { influenced := responder
                at_turn := i
                responder_turns := (List.range' (i + 1) (min (i + 6) msgs.length - (i + 1))).filter
                  (fun j => (msgAt msgs j).participantId == responder) }) m
        else m
      else m)
    split
    · split
      · apply List.foldlRecOn
        · exact hm
        · intro m2 hm2 r hr
          have hspec := responders_spec th msgs i r hr
          exact addInfluence_ok msgs m2 (msgAt msgs i).participantId _ hm2
            (pid_mem_participants msgs i hilt) hspec.1 hspec.2
      · exact hm
    · exact hm

theorem pairKeyOf_lt (a b : String) (h : a ≠ b) :
    (pairKeyOf a b).1 < (pairKeyOf a b).2 := by
  unfold pairKeyOf
  split
  · rename_i hle
    exact lt_of_le_of_ne hle h
  · rename_i hnle
    exact lt_of_not_le hnle

theorem pairKeyOf_fst_mem (a b : String) : (pairKeyOf a b).1 = a ∨ (pairKeyOf a b).1 = b := by
  unfold pairKeyOf
  split <;> simp

theorem pairKeyOf_snd_mem (a b : String) : (pairKeyOf a b).2 = a ∨ (pairKeyOf a b).2 = b := by
  unfold pairKeyOf
  split <;> simp

theorem influencePass2_ok (th : Thresholds) (msgs : List Msg) :
    Pass2OK msgs (influencePass2 (influencePass1 th msgs)) := by
  have hmap := influencePass1_ok th msgs
  unfold influencePass2
  generalize hm : influencePass1 th msgs = m at hmap
  have step2 : ∀ (entry : String × List InfluenceEvent), entry ∈ m →
      ∀ st2, Pass2OK msgs st2 → ∀ ev ∈ entry.2, Pass2OK msgs
        ((fun st2 ev =>
          if st2.2.contains (pairKeyOf entry.1 ev.influenced) then st2
          else
            match m.lookup ev.influenced with
            | none => st2
            | some evsB =>
              match evsB.find? (fun e => e.influenced == entry.1) with
              | none => st2
              | some evB =>
                (st2.1 ++ [{ participant_a := entry.1
                             participant_b := ev.influenced
                             first_influence_turn :=
                               (if ev.at_turn < evB.at_turn then (ev.at_turn, evB.at_turn)
                                else (evB.at_turn, ev.at_turn)).1
                             second_influence_turn :=
                               (if ev.at_turn < evB.at_turn then (ev.at_turn, evB.at_turn)
                                else (evB.at_turn, ev.at_turn)).2
                             turn_gap := ((evB.at_turn : Int) - (ev.at_turn : Int)).natAbs }],
                 st2.2 ++ [pairKeyOf entry.1 ev.influenced])) st2 ev) := by
    intro entry hentry st2 hst2 ev hev
    dsimp only
    by_cases hc : st2.2.contains (pairKeyOf entry.1 ev.influenced) = true
    · rw [if_pos hc]
      exact hst2
    · rw [if_neg hc]
      split
      · exact hst2
      · split
        · exact hst2
        · obtain ⟨h1, h2, h3⟩ := hst2
          have hEnt := hmap entry hentry
          have hEv := hEnt.2 ev hev
          have hkey_lt := pairKeyOf_lt entry.1 ev.influenced (fun hEq => hEv.2 hEq.symm)
          have hnotmem : pairKeyOf entry.1 ev.influenced ∉ st2.2 := by
            intro hmem
            exact hc (List.elem_iff.mpr hmem)
          refine ⟨?_, ?_, ?_⟩
          · rw [List.map_append, h1]
            rfl
          · rw [List.nodup_append]
            refine ⟨h2, List.nodup_singleton _, ?_⟩
            intro p hp hq
            simp at hq
            subst hq
            exact hnotmem hp
          · intro p hp
            rcases List.mem_append.mp hp with hp1 | hp2
            · exact h3 p hp1
            · simp at hp2
              subst hp2
              refine ⟨hkey_lt, ?_, ?_⟩
              · rcases pairKeyOf_fst_mem entry.1 ev.influenced with hh | hh <;> rw [hh]
                · exact hEnt.1
                · exact hEv.1
              · rcases pairKeyOf_snd_mem entry.1 ev.influenced with hh | hh <;> rw [hh]
                · exact hEnt.1
                · exact hEv.1
  apply List.foldlRecOn
  · exact ⟨rfl, List.nodup_nil, by intro p hp; simp at hp⟩
  · intro st hst entry hentry
    apply List.foldlRecOn
    · exact hst
    · intro st2 hst2 ev hev
      exact step2 entry hentry st2 hst2 ev hev

theorem finsetPair_eq (a b c d : String) (hab : a < b) (hcd : c < d)
    (h : ({a, b} : Finset String) = ({c, d} : Finset String)) : a = c ∧ b = d := by
  have ha : a ∈ ({c, d} : Finset String) := by
    rw [← h]
    exact Finset.mem_insert_self a {b}
  have hb : b ∈ ({c, d} : Finset String) := by
    rw [← h]
    exact Finset.mem_insert_of_mem (Finset.mem_singleton_self b)
  rw [Finset.mem_insert, Finset.mem_singleton] at ha hb
  rcases ha with h1 | h1 <;> rcases hb with h2 | h2
  · exact absurd hab (by rw [h1, h2]; exact lt_irrefl c)
  · exact ⟨h1, h2⟩
  · exact absurd hab (by rw [h1, h2]; exact lt_asymm hcd)
  · exact absurd hab (by rw [h1, h2]; exact lt_irrefl d)

/-- Sorted participant pairs with distinct keys inject into the
two-element subsets of the participant set. -/
theorem sortedPairs_length_le (P : Finset String) (pr : List (String × String))
    (hnd : pr.Nodup) (hin : ∀ p ∈ pr, p.1 < p.2 ∧ p.1 ∈ P ∧ p.2 ∈ P) :
    pr.length ≤ P.card.choose 2 := by
  classical
  have hmapnd : (pr.map (fun p => ({p.1, p.2} : Finset String))).Nodup := by
    refine List.Nodup.map_on ?_ hnd
    intro x hx y hy hxy
    have hx' := hin x hx
    have hy' := hin y hy
    have hpair := finsetPair_eq x.1 x.2 y.1 y.2 hx'.1 hy'.1 hxy
    exact Prod.ext hpair.1 hpair.2
  have hsub : ∀ s ∈ pr.map (fun p => ({p.1, p.2} : Finset String)),
      s ∈ P.powersetCard 2 := by
    intro s hs
    rcases List.mem_map.mp hs with ⟨p, hp, hps⟩
    have hp' := hin p hp
    rw [← hps]
    rw [Finset.mem_powersetCard]
    constructor
    · intro x hx
      rcases Finset.mem_insert.mp hx with hx1 | hx2
      · rw [hx1]; exact hp'.2.1
      · rw [Finset.mem_singleton.mp hx2]; exact hp'.2.2
    · exact Finset.card_pair (ne_of_lt hp'.1)
  calc pr.length = (pr.map (fun p => ({p.1, p.2} : Finset String))).length :=
        (List.length_map _ _).symm
    _ = (pr.map (fun p => ({p.1, p.2} : Finset String))).toFinset.card :=
        (List.toFinset_card_of_nodup hmapnd).symm
    _ ≤ (P.powersetCard 2).card := by
        apply Finset.card_le_card
        intro s hs
        exact hsub s (List.mem_toFinset.mp hs)
    _ = P.card.choose 2 := Finset.card_powersetCard 2 P

/-- Claim C7: bidirectional-influence dedup — for every message list, the
reported bidirectional_pairs count is at most C(n, 2) where n is the
number of distinct participants in the list, the recorded events carry
pairwise-distinct unordered pair keys (so each unordered pair contributes
at most one event), and bidirectional_event_count is exactly the number of
recorded events. -/
theorem claim_C7_theorem (th : Thresholds) (msgs : List Msg) :
    (detectBidirectionalInfluence th msgs).1.bidirectional_pairs ≤
      (participantsOf msgs).card.choose 2 ∧
    ((detectBidirectionalInfluence th msgs).2.map eventKey).Nodup ∧
    (detectBidirectionalInfluence th msgs).1.bidirectional_event_count =
      (detectBidirectionalInfluence th msgs).2.length := by
  obtain ⟨h1, h2, h3⟩ := influencePass2_ok th msgs
  refine ⟨?_, ?_, rfl⟩
  · have hpr : (detectBidirectionalInfluence th msgs).1.bidirectional_pairs =
        (influencePass2 (influencePass1 th msgs)).2.length := rfl
    rw [hpr]
    exact sortedPairs_length_le (participantsOf msgs) _ h2 h3
  · have hev : (detectBidirectionalInfluence th msgs).2.map eventKey =
        (influencePass2 (influencePass1 th msgs)).2 := h1
    rw [hev]
    exact h2


theorem mergeStage2_outcome (snap : Option SnapshotMetrics) (r : MergedRecord) :
    (mergeStage2 snap r).conversation_outcome = r.conversation_outcome := by
  unfold mergeStage2
  split <;> rfl

theorem mergeStage1_outcome_some (msgRes : MessageResults) (m : SnapshotMetrics)
    (ec : Nat) :
    (mergeStage1 msgRes (some m) ec).conversation_outcome = some m.conversation_outcome := rfl

theorem analyzeSnapshots_some (th : Thresholds) (history : List Snapshot)
    (hne : history ≠ []) :
    ∃ m, analyzeSnapshots th history = some m ∧
      m.conversation_outcome = recoveryOutcome th (phaseTimelineOf history) history := by
  unfold analyzeSnapshots
  rw [if_neg hne]
  exact ⟨_, rfl, rfl⟩

theorem recoveryOutcome_mem (th : Thresholds) (timeline : List (Nat × String))
    (history : List Snapshot) :
    recoveryOutcome th timeline history ∈
      ["no_breakdown", "breakdown", "recovered", "resisted"] := by
  simp only [recoveryOutcome]
  repeat' split
  all_goals decide

/-- Claim C2 counterexample: a conversation with an empty snapshot history
produces a final merged record with no conversation_outcome key at all
(the merge cascade writes the field only when snapshot metrics exist). -/
theorem claim_C2_counterexample :
    (parseAndAnalyze defaultThresholds [] [] 0).conversation_outcome = none := by
  decide

/-- Claim C2 (amended): whenever the snapshot history is non-empty, the
final merged record holds a conversation_outcome drawn from
no_breakdown / breakdown / recovered / resisted; with an empty history the
field is absent (see the counterexample). -/
theorem claim_C2_theorem (th : Thresholds) (msgs : List Msg) (history : List Snapshot)
    (ec : Nat) (hne : history ≠ []) :
    ∃ o, (parseAndAnalyze th msgs history ec).conversation_outcome = some o ∧
      o ∈ ["no_breakdown", "breakdown", "recovered", "resisted"] := by
  obtain ⟨m, hm, hco⟩ := analyzeSnapshots_some th history hne
  refine ⟨m.conversation_outcome, ?_, ?_⟩
  · unfold parseAndAnalyze
    rw [mergeStage2_outcome, hm, mergeStage1_outcome_some]
  · rw [hco]
    exact recoveryOutcome_mem th (phaseTimelineOf history) history

theorem claim_C2_witness :
    ∃ o, (parseAndAnalyze defaultThresholds [] [witnessSnap] 0).conversation_outcome =
        some o ∧
      o ∈ ["no_breakdown", "breakdown", "recovered", "resisted"] :=
  claim_C2_theorem defaultThresholds [] [witnessSnap] 0 (List.cons_ne_nil _ _)

/-- Claim C8: the asymmetric confidence upgrade — whenever a closure
indicator fires on the snapshot metrics and the record produced by the
primary merge cascade still reads no_breakdown, the finished record has
breakdown_confidence = likely and breakdown_occurred = 1. -/
theorem claim_C8_theorem (th : Thresholds) (msgs : List Msg) (history : List Snapshot)
    (ec : Nat)
    (hci : snapClosureIndicators (analyzeSnapshots th history) = true)
    (hnb : (mergeStage1 (analyzeMessages th msgs) (analyzeSnapshots th history)
      ec).breakdown_confidence = "no_breakdown") :
    (parseAndAnalyze th msgs history ec).breakdown_confidence = "likely" ∧
    (parseAndAnalyze th msgs history ec).breakdown_occurred = 1 := by
  unfold parseAndAnalyze mergeStage2
  rw [if_pos ⟨hci, hnb⟩]
  exact ⟨rfl, rfl⟩

unseal Rat.mul Rat.add Rat.sub Rat.inv in
theorem claim_C8_witness :
    (parseAndAnalyze defaultThresholds [] [witnessSnap] 0).breakdown_confidence =
        "likely" ∧
    (parseAndAnalyze defaultThresholds [] [witnessSnap] 0).breakdown_occurred = 1 :=
  claim_C8_theorem defaultThresholds [] [witnessSnap] 0 (by decide) (by decide)


/-!
Fire/skip equations for the four loop blocks, and stability lemmas: a
block that leaves its start index unchanged leaves every duration cell
unchanged.
-/

theorem phaseStepMeta_fire (msgs : List Msg) (i : Nat) (s : PhaseState)
    (h1 : metaTrigAt msgs i = true) (h2 : s.meta_reflection_started = -1) :
    phaseStepMeta msgs i s =
      { s with
        meta_reflection_started := (i : Int)
        phase1_duration := (i : Int) - s.phase_start
        phase_start := (i : Int)
        current_phase := "meta_reflection"
        meta_trigger_count := s.meta_trigger_count + 1 } := by
  unfold phaseStepMeta
  rw [if_pos h1, if_pos h2]

theorem phaseStepMeta_count (msgs : List Msg) (i : Nat) (s : PhaseState)
    (h1 : metaTrigAt msgs i = true) (h2 : s.meta_reflection_started ≠ -1) :
    phaseStepMeta msgs i s = { s with meta_trigger_count := s.meta_trigger_count + 1 } := by
  unfold phaseStepMeta
  rw [if_pos h1, if_neg h2]

theorem phaseStepMeta_skip (msgs : List Msg) (i : Nat) (s : PhaseState)
    (h1 : ¬(metaTrigAt msgs i = true)) :
    phaseStepMeta msgs i s = s := by
  unfold phaseStepMeta
  rw [if_neg h1]

theorem phaseStepMeta_durs (msgs : List Msg) (i : Nat) (s : PhaseState) :
    (phaseStepMeta msgs i s).phase2_duration = s.phase2_duration ∧
    (phaseStepMeta msgs i s).phase3_duration = s.phase3_duration ∧
    (phaseStepMeta msgs i s).phase4_duration = s.phase4_duration := by
  unfold phaseStepMeta
  repeat' split
  all_goals exact ⟨rfl, rfl, rfl⟩

theorem phaseStepMeta_inv (msgs : List Msg) (i : Nat) (s : PhaseState)
    (h : s.meta_reflection_started ≠ -1) :
    (phaseStepMeta msgs i s).phase1_duration = s.phase1_duration ∧
    (phaseStepMeta msgs i s).phase_start = s.phase_start := by
  unfold phaseStepMeta
  by_cases h1 : metaTrigAt msgs i = true
  · rw [if_pos h1, if_neg h]
    exact ⟨rfl, rfl⟩
  · rw [if_neg h1]
    exact ⟨rfl, rfl⟩

theorem phaseStepPeer_fire (th : Thresholds) (msgs : List Msg) (s : PhaseState)
    (h1 : s.meta_reflection_started > -1) (h2 : s.peer_response_started = -1)
    (h3 : (detectPeerPressureResponse th msgs s.meta_reflection_started.toNat).1 = true) :
    phaseStepPeer th msgs s =
      { s with
        peer_response_started := s.meta_reflection_started + 1
        phase2_duration := s.meta_reflection_started + 1 - s.phase_start
        phase_start := s.meta_reflection_started + 1
        current_phase := "peer_response"
        breakdown_after_meta := true } := by
  unfold phaseStepPeer
  rw [if_pos ⟨h1, h2⟩, if_pos h3]

theorem phaseStepPeer_skip1 (th : Thresholds) (msgs : List Msg) (s : PhaseState)
    (h : ¬(s.meta_reflection_started > -1 ∧ s.peer_response_started = -1)) :
    phaseStepPeer th msgs s = s := by
  unfold phaseStepPeer
  rw [if_neg h]

theorem phaseStepPeer_skip2 (th : Thresholds) (msgs : List Msg) (s : PhaseState)
    (h : (detectPeerPressureResponse th msgs s.meta_reflection_started.toNat).1 = false) :
    phaseStepPeer th msgs s = s := by
  unfold phaseStepPeer
  split
  · rw [if_neg]
    simp [h]
  · rfl

theorem phaseStepPeer_stable (th : Thresholds) (msgs : List Msg) (s : PhaseState)
    (h : (phaseStepPeer th msgs s).peer_response_started = s.peer_response_started) :
    phaseStepPeer th msgs s = s := by
  rcases (by omega : s.meta_reflection_started > -1 ∧ s.peer_response_started = -1 ∨
      ¬(s.meta_reflection_started > -1 ∧ s.peer_response_started = -1)) with hg | hg
  · by_cases h3 : (detectPeerPressureResponse th msgs s.meta_reflection_started.toNat).1 = true
    · exfalso
      rw [phaseStepPeer_fire th msgs s hg.1 hg.2 h3] at h
      simp at h
      omega
    · exact phaseStepPeer_skip2 th msgs s (by simpa using h3)
  · exact phaseStepPeer_skip1 th msgs s hg

theorem phaseStepComp_fire (th : Thresholds) (msgs : List Msg) (i : Nat) (s : PhaseState)
    (h1 : (i : Int) ≥
      max (if s.peer_response_started > -1 then s.peer_response_started else 0)
        (if s.meta_reflection_started > -1 then s.meta_reflection_started else 0) + 2)
    (h2 : (detectCompetitiveEscalation th msgs
        (max (max s.peer_response_started s.meta_reflection_started) 0).toNat (i + 1)).1 ∨
      (detectCompetitiveEscalation th msgs
        (max (max s.peer_response_started s.meta_reflection_started) 0).toNat (i + 1)).2 > 3)
    (h3 : s.competitive_started = -1) :
    phaseStepComp th msgs i s =
      { s with
        competitive_started := max (max s.peer_response_started s.meta_reflection_started) 0 + 1
        phase3_duration :=
          if s.peer_response_started > -1 then
            max (max s.peer_response_started s.meta_reflection_started) 0 + 1 -
              s.peer_response_started
          else s.phase3_duration
        phase2_duration :=
          if s.peer_response_started > -1 then s.phase2_duration
          else if s.meta_reflection_started > -1 then
            max (max s.peer_response_started s.meta_reflection_started) 0 + 1 -
              s.meta_reflection_started
          else s.phase2_duration
        phase_start := max (max s.peer_response_started s.meta_reflection_started) 0 + 1
        current_phase := "competitive_escalation" } := by
  unfold phaseStepComp
  rw [if_pos h1, if_pos h2, if_pos h3]

theorem phaseStepComp_skip1 (th : Thresholds) (msgs : List Msg) (i : Nat) (s : PhaseState)
    (h : ¬((i : Int) ≥
      max (if s.peer_response_started > -1 then s.peer_response_started else 0)
        (if s.meta_reflection_started > -1 then s.meta_reflection_started else 0) + 2)) :
    phaseStepComp th msgs i s = s := by
  unfold phaseStepComp
  rw [if_neg h]

theorem phaseStepComp_skip2 (th : Thresholds) (msgs : List Msg) (i : Nat) (s : PhaseState)
    (h : ¬((detectCompetitiveEscalation th msgs
        (max (max s.peer_response_started s.meta_reflection_started) 0).toNat (i + 1)).1 ∨
      (detectCompetitiveEscalation th msgs
        (max (max s.peer_response_started s.meta_reflection_started) 0).toNat (i + 1)).2 > 3)) :
    phaseStepComp th msgs i s = s := by
  simp only [phaseStepComp]
  by_cases h1 : (i : Int) ≥
      max (if s.peer_response_started > -1 then s.peer_response_started else 0)
        (if s.meta_reflection_started > -1 then s.meta_reflection_started else 0) + 2
  · rw [if_pos h1, if_neg h]
  · rw [if_neg h1]

theorem phaseStepComp_skip3 (th : Thresholds) (msgs : List Msg) (i : Nat) (s : PhaseState)
    (h : s.competitive_started ≠ -1) :
    phaseStepComp th msgs i s = s := by
  simp only [phaseStepComp]
  by_cases h1 : (i : Int) ≥
      max (if s.peer_response_started > -1 then s.peer_response_started else 0)
        (if s.meta_reflection_started > -1 then s.meta_reflection_started else 0) + 2
  · rw [if_pos h1]
    by_cases h2 : (detectCompetitiveEscalation th msgs
          (max (max s.peer_response_started s.meta_reflection_started) 0).toNat (i + 1)).1 ∨
        (detectCompetitiveEscalation th msgs
          (max (max s.peer_response_started s.meta_reflection_started) 0).toNat (i + 1)).2 > 3
    · rw [if_pos h2, if_neg h]
    · rw [if_neg h2]
  · rw [if_neg h1]

theorem phaseStepComp_stable (th : Thresholds) (msgs : List Msg) (i : Nat) (s : PhaseState)
    (h : (phaseStepComp th msgs i s).competitive_started = s.competitive_started) :
    phaseStepComp th msgs i s = s := by
  by_cases h3 : s.competitive_started = -1
  · by_cases h1 : (i : Int) ≥
        max (if s.peer_response_started > -1 then s.peer_response_started else 0)
          (if s.meta_reflection_started > -1 then s.meta_reflection_started else 0) + 2
    · by_cases h2 : (detectCompetitiveEscalation th msgs
          (max (max s.peer_response_started s.meta_reflection_started) 0).toNat (i + 1)).1 ∨
        (detectCompetitiveEscalation th msgs
          (max (max s.peer_response_started s.meta_reflection_started) 0).toNat (i + 1)).2 > 3
      · exfalso
        rw [phaseStepComp_fire th msgs i s h1 h2 h3] at h
        simp at h
        have hmax : max (max s.peer_response_started s.meta_reflection_started) 0 ≥ 0 :=
          le_max_right _ _
        omega
      · exact phaseStepComp_skip2 th msgs i s h2
    · exact phaseStepComp_skip1 th msgs i s h1
  · exact phaseStepComp_skip3 th msgs i s h3

theorem phaseStepMyst_fire (th : Thresholds) (msgs : List Msg) (i : Nat) (s : PhaseState)
    (h1 : isMysticalContent th (msgAt msgs i).content = true)
    (h2 : s.mystical_started = -1) :
    phaseStepMyst th msgs i s =
      { s with
        mystical_started := (i : Int)
        phase4_duration :=
          if s.competitive_started > -1 then (i : Int) - s.competitive_started
          else s.phase4_duration
        phase3_duration :=
          if s.competitive_started > -1 then s.phase3_duration
          else if s.peer_response_started > -1 then (i : Int) - s.peer_response_started
          else s.phase3_duration
        phase2_duration :=
          if s.competitive_started > -1 ∨ s.peer_response_started > -1 then
            s.phase2_duration
          else if s.meta_reflection_started > -1 then (i : Int) - s.meta_reflection_started
          else s.phase2_duration
        phase1_duration :=
          if s.competitive_started > -1 ∨ s.peer_response_started > -1 ∨
              s.meta_reflection_started > -1 then s.phase1_duration
          else (i : Int)
        phase_start := (i : Int)
        current_phase := "mystical_breakdown" } := by
  unfold phaseStepMyst
  rw [if_pos h1, if_pos h2]

theorem phaseStepMyst_skip1 (th : Thresholds) (msgs : List Msg) (i : Nat) (s : PhaseState)
    (h : ¬(isMysticalContent th (msgAt msgs i).content = true)) :
    phaseStepMyst th msgs i s = s := by
  unfold phaseStepMyst
  rw [if_neg h]

theorem phaseStepMyst_skip2 (th : Thresholds) (msgs : List Msg) (i : Nat) (s : PhaseState)
    (h : s.mystical_started ≠ -1) :
    phaseStepMyst th msgs i s = s := by
  by_cases h1 : isMysticalContent th (msgAt msgs i).content = true
  · unfold phaseStepMyst
    rw [if_pos h1, if_neg h]
  · exact phaseStepMyst_skip1 th msgs i s h1

theorem phaseStepMyst_stable (th : Thresholds) (msgs : List Msg) (i : Nat) (s : PhaseState)
    (h : (phaseStepMyst th msgs i s).mystical_started = s.mystical_started) :
    phaseStepMyst th msgs i s = s := by
  by_cases h2 : s.mystical_started = -1
  · by_cases h1 : isMysticalContent th (msgAt msgs i).content = true
    · exfalso
      rw [phaseStepMyst_fire th msgs i s h1 h2] at h
      simp at h
      omega
    · exact phaseStepMyst_skip1 th msgs i s h1
  · exact phaseStepMyst_skip2 th msgs i s h2


theorem phaseInv_step1 (th : Thresholds) (msgs : List Msg) (i : Nat) (t : PhaseState)
    (hmyst : ¬(t.mystical_started > -1))
    (hpd : t.meta_reflection_started > -1 → t.peer_response_started = -1 →
      (detectPeerPressureResponse th msgs t.meta_reflection_started.toNat).1 = false)
    (hts : PhaseSum t) :
    PhaseInv th msgs (phaseStepMyst th msgs i t) := by
  by_cases hmc : isMysticalContent th (msgAt msgs i).content = true
  · by_cases hm1 : t.mystical_started = -1
    · rw [phaseStepMyst_fire th msgs i t hmc hm1]
      constructor
      · intro hcon
        exfalso
        have hni : ¬((i : Int) > -1) := hcon.2.2
        omega
      · unfold PhaseSum
        dsimp only
        rw [if_pos (show (i : Int) > -1 by omega)]
        by_cases hc : t.competitive_started > -1
        · rw [if_pos hc, if_pos hc, if_pos (Or.inl hc), if_pos (Or.inl hc)]
          have htsC := hts
          unfold PhaseSum at htsC
          rw [if_neg hmyst, if_pos hc] at htsC
          obtain ⟨-, hCsum, -⟩ := htsC
          omega
        · by_cases hp : t.peer_response_started > -1
          · rw [if_neg hc, if_neg hc, if_pos hp, if_pos (Or.inr hp),
              if_pos (Or.inr (Or.inl hp))]
            have htsP := hts
            unfold PhaseSum at htsP
            rw [if_neg hmyst, if_neg hc, if_pos hp] at htsP
            obtain ⟨-, hPsum, hPd3, hPd4⟩ := htsP
            omega
          · by_cases hm : t.meta_reflection_started > -1
            · rw [if_neg hc, if_neg hc, if_neg hp,
                if_neg (show ¬(t.competitive_started > -1 ∨ t.peer_response_started > -1)
                  from fun h => h.elim hc hp),
                if_pos hm, if_pos (Or.inr (Or.inr hm))]
              have htsM := hts
              unfold PhaseSum at htsM
              rw [if_neg hmyst, if_neg hc, if_neg hp, if_pos hm] at htsM
              obtain ⟨hMd1, -, hMd3, hMd4⟩ := htsM
              omega
            · rw [if_neg hc, if_neg hc, if_neg hp,
                if_neg (show ¬(t.competitive_started > -1 ∨ t.peer_response_started > -1)
                  from fun h => h.elim hc hp),
                if_neg hm,
                if_neg (show ¬(t.competitive_started > -1 ∨ t.peer_response_started > -1 ∨
                    t.meta_reflection_started > -1)
                  from fun h => h.elim hc (fun h2 => h2.elim hp hm))]
              have htsZ := hts
              unfold PhaseSum at htsZ
              rw [if_neg hmyst, if_neg hc, if_neg hp, if_neg hm] at htsZ
              obtain ⟨-, hZd2, hZd3, hZd4⟩ := htsZ
              omega
    · rw [phaseStepMyst_skip2 th msgs i t hm1]
      exact ⟨fun h => hpd h.1 h.2.1, hts⟩
  · rw [phaseStepMyst_skip1 th msgs i t hmc]
    exact ⟨fun h => hpd h.1 h.2.1, hts⟩

theorem phaseInv_step2 (th : Thresholds) (msgs : List Msg) (i : Nat) (t : PhaseState)
    (hmyst : ¬(t.mystical_started > -1))
    (hcompOK : (phaseStepComp th msgs i t).competitive_started ≠ t.competitive_started →
      t.meta_reflection_started > -1)
    (hpd : t.meta_reflection_started > -1 → t.peer_response_started = -1 →
      (detectPeerPressureResponse th msgs t.meta_reflection_started.toNat).1 = false)
    (hts : PhaseSum t) :
    PhaseInv th msgs (phaseStepMyst th msgs i (phaseStepComp th msgs i t)) := by
  by_cases h3 : t.competitive_started = -1
  · by_cases h1 : (i : Int) ≥
        max (if t.peer_response_started > -1 then t.peer_response_started else 0)
          (if t.meta_reflection_started > -1 then t.meta_reflection_started else 0) + 2
    · by_cases h2 : (detectCompetitiveEscalation th msgs
          (max (max t.peer_response_started t.meta_reflection_started) 0).toNat (i + 1)).1 ∨
        (detectCompetitiveEscalation th msgs
          (max (max t.peer_response_started t.meta_reflection_started) 0).toNat (i + 1)).2 > 3
      · have hmeta : t.meta_reflection_started > -1 := by
          apply hcompOK
          rw [phaseStepComp_comp th msgs i t, if_pos ⟨h1, h2, h3⟩]
          have hmx : max (max t.peer_response_started t.meta_reflection_started) 0 ≥ 0 :=
            le_max_right _ _
          omega
        rw [phaseStepComp_fire th msgs i t h1 h2 h3]
        apply phaseInv_step1 th msgs i _ ?_ ?_ ?_
        · exact hmyst
        · exact fun hm hp => hpd hm hp
        · unfold PhaseSum
          dsimp only
          rw [if_neg hmyst]
          rw [if_pos (show max (max t.peer_response_started t.meta_reflection_started) 0 + 1
              > -1 from by
            have hmx : max (max t.peer_response_started t.meta_reflection_started) 0 ≥ 0 :=
              le_max_right _ _
            omega)]
          refine ⟨hmeta, ?_, ?_⟩
          · by_cases hp : t.peer_response_started > -1
            · rw [if_pos hp, if_pos hp]
              have htsP := hts
              unfold PhaseSum at htsP
              rw [if_neg hmyst, if_neg (by omega : ¬(t.competitive_started > -1)),
                if_pos hp] at htsP
              obtain ⟨-, hPsum, -, -⟩ := htsP
              omega
            · rw [if_neg hp, if_neg hp, if_pos hmeta]
              have htsM := hts
              unfold PhaseSum at htsM
              rw [if_neg hmyst, if_neg (by omega : ¬(t.competitive_started > -1)),
                if_neg hp, if_pos hmeta] at htsM
              obtain ⟨hMd1, -, hMd3, -⟩ := htsM
              omega
          · by_cases hp : t.peer_response_started > -1
            · have htsP := hts
              unfold PhaseSum at htsP
              rw [if_neg hmyst, if_neg (by omega : ¬(t.competitive_started > -1)),
                if_pos hp] at htsP
              exact htsP.2.2.2
            · have htsM := hts
              unfold PhaseSum at htsM
              rw [if_neg hmyst, if_neg (by omega : ¬(t.competitive_started > -1)),
                if_neg hp, if_pos hmeta] at htsM
              exact htsM.2.2.2
      · rw [phaseStepComp_skip2 th msgs i t h2]
        exact phaseInv_step1 th msgs i t hmyst hpd hts
    · rw [phaseStepComp_skip1 th msgs i t h1]
      exact phaseInv_step1 th msgs i t hmyst hpd hts
  · rw [phaseStepComp_skip3 th msgs i t h3]
    exact phaseInv_step1 th msgs i t hmyst hpd hts

theorem phaseInv_step3 (th : Thresholds) (msgs : List Msg) (i : Nat) (t : PhaseState)
    (hmyst : ¬(t.mystical_started > -1))
    (hcompOK : (phaseStepComp th msgs i (phaseStepPeer th msgs t)).competitive_started ≠
        t.competitive_started → t.meta_reflection_started > -1)
    (hpdC : t.competitive_started > -1 → t.peer_response_started = -1 →
      (detectPeerPressureResponse th msgs t.meta_reflection_started.toNat).1 = false)
    (hts : PhaseSum t) :
    PhaseInv th msgs
      (phaseStepMyst th msgs i (phaseStepComp th msgs i (phaseStepPeer th msgs t))) := by
  by_cases hg : t.meta_reflection_started > -1 ∧ t.peer_response_started = -1
  · by_cases hchk : (detectPeerPressureResponse th msgs t.meta_reflection_started.toNat).1
        = true
    · have hcomp' : ¬(t.competitive_started > -1) := by
        intro hc
        rw [hpdC hc hg.2] at hchk
        simp at hchk
      have hpeer' : ¬(t.peer_response_started > -1) := by omega
      have htM := hts
      unfold PhaseSum at htM
      rw [if_neg hmyst, if_neg hcomp', if_neg hpeer', if_pos hg.1] at htM
      obtain ⟨hMd1, hMps, hMd3, hMd4⟩ := htM
      rw [phaseStepPeer_fire th msgs t hg.1 hg.2 hchk]
      apply phaseInv_step2 th msgs i _ ?_ ?_ ?_ ?_
      · exact hmyst
      · exact fun _ => hg.1
      · intro hm hp
        exfalso
        have hp' : t.meta_reflection_started + 1 = -1 := hp
        omega
      · unfold PhaseSum
        dsimp only
        rw [if_neg hmyst, if_neg hcomp',
          if_pos (show t.meta_reflection_started + 1 > -1 from by omega)]
        refine ⟨hg.1, ?_, hMd3, hMd4⟩
        omega
    · have hchk' : (detectPeerPressureResponse th msgs t.meta_reflection_started.toNat).1
          = false := by
        simpa using hchk
      rw [phaseStepPeer_skip2 th msgs t hchk'] at hcompOK ⊢
      exact phaseInv_step2 th msgs i t hmyst hcompOK (fun _ _ => hchk') hts
  · rw [phaseStepPeer_skip1 th msgs t hg] at hcompOK ⊢
    exact phaseInv_step2 th msgs i t hmyst hcompOK
      (fun hm hp => absurd ⟨hm, hp⟩ hg) hts


theorem phaseStepMeta_stable (msgs : List Msg) (i : Nat) (s : PhaseState)
    (h : (phaseStepMeta msgs i s).meta_reflection_started = s.meta_reflection_started) :
    (phaseStepMeta msgs i s).phase1_duration = s.phase1_duration ∧
    (phaseStepMeta msgs i s).phase_start = s.phase_start := by
  by_cases h2 : s.meta_reflection_started = -1
  · by_cases h1 : metaTrigAt msgs i = true
    · exfalso
      rw [phaseStepMeta_fire msgs i s h1 h2] at h
      simp at h
      omega
    · rw [phaseStepMeta_skip msgs i s h1]
      exact ⟨rfl, rfl⟩
  · exact phaseStepMeta_inv msgs i s h2

theorem phaseInv_step (th : Thresholds) (msgs : List Msg) (i : Nat) (s : PhaseState)
    (hA : s.mystical_started > -1 →
      (phaseStep th msgs s i).meta_reflection_started = s.meta_reflection_started ∧
      (phaseStep th msgs s i).peer_response_started = s.peer_response_started ∧
      (phaseStep th msgs s i).competitive_started = s.competitive_started)
    (hB : (phaseStep th msgs s i).competitive_started ≠ s.competitive_started →
      s.meta_reflection_started > -1)
    (hs : PhaseInv th msgs s) :
    PhaseInv th msgs (phaseStep th msgs s i) := by
  have hstep : phaseStep th msgs s i =
      phaseStepMyst th msgs i (phaseStepComp th msgs i (phaseStepPeer th msgs
        (phaseStepMeta msgs i s))) := rfl
  by_cases hY : s.mystical_started > -1
  · obtain ⟨hI1, hI2, hI3⟩ := hA hY
    rw [hstep] at hI1 hI2 hI3 ⊢
    have hmM : (phaseStepMeta msgs i s).meta_reflection_started =
        s.meta_reflection_started := by
      rw [phaseStepMyst_meta, phaseStepComp_meta, phaseStepPeer_meta] at hI1
      exact hI1
    have e2 : phaseStepPeer th msgs (phaseStepMeta msgs i s) = phaseStepMeta msgs i s := by
      apply phaseStepPeer_stable
      rw [phaseStepMyst_peer, phaseStepComp_peer] at hI2
      rw [hI2, phaseStepMeta_peer]
    rw [e2] at hI3 ⊢
    have e3 : phaseStepComp th msgs i (phaseStepMeta msgs i s) =
        phaseStepMeta msgs i s := by
      apply phaseStepComp_stable
      rw [phaseStepMyst_comp] at hI3
      rw [hI3, phaseStepMeta_comp]
    rw [e3]
    have e4 : phaseStepMyst th msgs i (phaseStepMeta msgs i s) =
        phaseStepMeta msgs i s := by
      apply phaseStepMyst_skip2
      rw [phaseStepMeta_myst]
      omega
    rw [e4]
    obtain ⟨hd1, hps⟩ := phaseStepMeta_stable msgs i s hmM
    obtain ⟨hd2, hd3, hd4⟩ := phaseStepMeta_durs msgs i s
    unfold PhaseInv PhaseSum at hs ⊢
    rw [phaseStepMeta_myst, phaseStepMeta_comp, phaseStepMeta_peer, hmM, hd1, hd2, hd3,
      hd4, hps]
    exact hs
  · by_cases hmf : metaTrigAt msgs i ∧ s.meta_reflection_started = -1
    · have hcompZ : ¬(s.competitive_started > -1) := by
        intro hc
        have hsC := hs.2
        unfold PhaseSum at hsC
        rw [if_neg hY, if_pos hc] at hsC
        obtain ⟨hm', -, -⟩ := hsC
        omega
      have hpeerZ : ¬(s.peer_response_started > -1) := by
        intro hp
        have hsP := hs.2
        unfold PhaseSum at hsP
        rw [if_neg hY, if_neg hcompZ, if_pos hp] at hsP
        obtain ⟨hm', -, -, -⟩ := hsP
        omega
      have hsZ := hs.2
      unfold PhaseSum at hsZ
      rw [if_neg hY, if_neg hcompZ, if_neg hpeerZ,
        if_neg (show ¬(s.meta_reflection_started > -1) from by omega)] at hsZ
      obtain ⟨hZps, hZd2, hZd3, hZd4⟩ := hsZ
      rw [hstep, phaseStepMeta_fire msgs i s hmf.1 hmf.2]
      apply phaseInv_step3 th msgs i _ ?_ ?_ ?_ ?_
      · exact hY
      · exact fun _ => (by omega : (i : Int) > -1)
      · intro hc hp
        exfalso
        have hc' : s.competitive_started > -1 := hc
        exact hcompZ hc'
      · unfold PhaseSum
        dsimp only
        rw [if_neg hY, if_neg hcompZ, if_neg hpeerZ,
          if_pos (show (i : Int) > -1 from by omega)]
        refine ⟨?_, ?_, hZd3, hZd4⟩
        · omega
        · rfl
    · have hmM : (phaseStepMeta msgs i s).meta_reflection_started =
          s.meta_reflection_started := by
        rw [phaseStepMeta_meta, if_neg hmf]
      obtain ⟨hd1, hps⟩ := phaseStepMeta_stable msgs i s hmM
      obtain ⟨hd2, hd3, hd4⟩ := phaseStepMeta_durs msgs i s
      rw [hstep]
      apply phaseInv_step3 th msgs i _ ?_ ?_ ?_ ?_
      · rw [phaseStepMeta_myst]
        exact hY
      · intro hne
        rw [phaseStepMeta_comp] at hne
        rw [hmM]
        apply hB
        rw [hstep, phaseStepMyst_comp]
        exact hne
      · intro hc hp
        rw [phaseStepMeta_comp] at hc
        rw [phaseStepMeta_peer] at hp
        rw [hmM]
        have hsC := hs.2
        unfold PhaseSum at hsC
        rw [if_neg hY, if_pos hc] at hsC
        exact hs.1 ⟨hsC.1, hp, hY⟩
      · unfold PhaseSum
        rw [phaseStepMeta_myst, phaseStepMeta_comp, phaseStepMeta_peer, hmM, hd1, hd2,
          hd3, hd4, hps]
        have hsum := hs.2
        unfold PhaseSum at hsum
        exact hsum

theorem phaseInv_init (th : Thresholds) (msgs : List Msg) :
    PhaseInv th msgs initPhaseState := by
  constructor
  · intro h
    exact absurd h.1 (by decide)
  · unfold PhaseSum
    decide

theorem phaseInv_run (th : Thresholds) (msgs : List Msg)
    (hA : mysticalFreezesTrace th msgs) (hB : compNeedsMeta th msgs) :
    ∀ k, k ≤ msgs.length → PhaseInv th msgs (phaseRun th msgs k) := by
  intro k
  induction k with
  | zero =>
    intro _
    rw [phaseRun_zero]
    exact phaseInv_init th msgs
  | succ n ih =>
    intro hk
    have hn : n < msgs.length := by omega
    rw [phaseRun_succ]
    apply phaseInv_step th msgs n (phaseRun th msgs n)
    · intro hmy
      have hfr := hA n hn hmy
      rw [phaseRun_succ] at hfr
      exact hfr
    · intro hne
      apply hB n hn
      rw [phaseRun_succ]
      exact hne
    · exact ih (by omega)

/-- Claim C1 (amended): the five reported phase durations sum to the
number of messages whenever the trace respects the nominal phase order —
no meta/peer/competitive start index is reassigned after a mystical
breakdown begins, and competitive escalation never fires before a
meta-reflection trigger was recorded. The unrestricted statement is
refuted by the counterexample, where competitive escalation fires with no
prior meta-reflection and one message leaks out of every bucket. -/
theorem claim_C1_theorem (th : Thresholds) (msgs : List Msg)
    (hA : mysticalFreezesTrace th msgs) (hB : compNeedsMeta th msgs) :
    (detectBreakdownPhase th msgs).phase1_duration +
      (detectBreakdownPhase th msgs).phase2_duration +
      (detectBreakdownPhase th msgs).phase3_duration +
      (detectBreakdownPhase th msgs).phase4_duration +
      (detectBreakdownPhase th msgs).phase5_duration = (msgs.length : Int) := by
  have hrun := phaseInv_run th msgs hA hB msgs.length (le_refl msgs.length)
  have hsum := hrun.2
  unfold PhaseSum at hsum
  simp only [detectBreakdownPhase]
  by_cases h5 : (phaseRun th msgs msgs.length).mystical_started > -1
  · rw [if_pos h5] at hsum
    simp only [if_pos h5]
    omega
  · rw [if_neg h5] at hsum
    simp only [if_neg h5]
    by_cases h4 : (phaseRun th msgs msgs.length).competitive_started > -1
    · rw [if_pos h4] at hsum
      simp only [if_pos h4]
      obtain ⟨-, hCsum, hCd4⟩ := hsum
      omega
    · rw [if_neg h4] at hsum
      simp only [if_neg h4]
      by_cases h3 : (phaseRun th msgs msgs.length).peer_response_started > -1
      · rw [if_pos h3] at hsum
        simp only [if_pos h3]
        obtain ⟨-, hPsum, hPd3, hPd4⟩ := hsum
        omega
      · rw [if_neg h3] at hsum
        simp only [if_neg h3]
        by_cases h2 : (phaseRun th msgs msgs.length).meta_reflection_started > -1
        · rw [if_pos h2] at hsum
          simp only [if_pos h2]
          obtain ⟨hMd1, -, hMd3, hMd4⟩ := hsum
          omega
        · rw [if_neg h2] at hsum
          simp only [if_neg h2]
          obtain ⟨-, hZd2, hZd3, hZd4⟩ := hsum
          omega

unseal Rat.mul Rat.add Rat.sub Rat.inv in
theorem claim_C1_witness :
    mysticalFreezesTrace defaultThresholds monoMsgs ∧
    compNeedsMeta defaultThresholds monoMsgs ∧
    ((detectBreakdownPhase defaultThresholds monoMsgs).phase1_duration +
      (detectBreakdownPhase defaultThresholds monoMsgs).phase2_duration +
      (detectBreakdownPhase defaultThresholds monoMsgs).phase3_duration +
      (detectBreakdownPhase defaultThresholds monoMsgs).phase4_duration +
      (detectBreakdownPhase defaultThresholds monoMsgs).phase5_duration =
        (monoMsgs.length : Int)) :=
  ⟨by unfold mysticalFreezesTrace; decide, by unfold compNeedsMeta; decide,
    claim_C1_theorem defaultThresholds monoMsgs
      (by unfold mysticalFreezesTrace; decide) (by unfold compNeedsMeta; decide)⟩

end Academy
